import Mathlib

/-!
# Formal model of the `device-uuid` library (v2 core)

This file gives a shallow embedding, in Lean 4, of the parts of the
`device-uuid` repository that the verified claims are about:

* the MD5 digest from `src/utils/md5.ts` (`hashMD5`),
* the user-agent classifier and UUID builder from `src/core/DeviceUUID.ts`
  (`parse`, `get`),
* the fingerprint-aggregation orchestrator `getDetailedAsync` from the same
  file, together with the helpers from `src/utils/fingerprint.ts`
  (`mergeOptions`, `withTimeout`, `combineHashes`, `calculateConfidence`).

JavaScript 32-bit integer values are modelled as `Nat` below `2 ^ 32`,
reading the JS bit pattern as unsigned (all operations used by the source
are bit-pattern faithful under this reading).  JavaScript strings are
UTF-16 code-unit sequences; they are modelled as Lean `String`s together
with the conversion `toCodeUnits` which reproduces `charCodeAt` exactly
(including surrogate splitting for astral code points).
-/

set_option maxRecDepth 100000
set_option maxHeartbeats 2000000

namespace DeviceUUID

/-- `2 ^ 32`, the modulus of JS 32-bit integer arithmetic. -/
def w32 : Nat := 4294967296

/-! ## MD5 (`src/utils/md5.ts`) -/

/-- `rotateLeft` from `src/utils/md5.ts`:
`(value << shiftBits) | (value >>> (32 - shiftBits))` on 32-bit patterns. -/
def rotateLeft (value shiftBits : Nat) : Nat :=
  Nat.lor (value * 2 ^ shiftBits % w32) (value / 2 ^ (32 - shiftBits))

/-- `addUnsigned` from `src/utils/md5.ts`, ported branch by branch.
(The masks and xors reproduce the JS int32 bit manipulation; the net
effect is addition modulo `2 ^ 32`.) -/
def addUnsigned (x y : Nat) : Nat :=
  let x8 := Nat.land x 0x80000000
  let y8 := Nat.land y 0x80000000
  let x4 := Nat.land x 0x40000000
  let y4 := Nat.land y 0x40000000
  let result := Nat.land x 0x3fffffff + Nat.land y 0x3fffffff
  if Nat.land x4 y4 ≠ 0 then
    Nat.xor (Nat.xor (Nat.xor result 0x80000000) x8) y8
  else if Nat.lor x4 y4 ≠ 0 then
    if Nat.land result 0x40000000 ≠ 0 then
      Nat.xor (Nat.xor (Nat.xor result 0xc0000000) x8) y8
    else
      Nat.xor (Nat.xor (Nat.xor result 0x40000000) x8) y8
  else
    Nat.xor (Nat.xor result x8) y8

/-- JS `~x` on a 32-bit pattern: complement within 32 bits. -/
def bnot32 (x : Nat) : Nat := Nat.xor x 0xffffffff

/-- MD5 auxiliary function `f`: `(x & y) | (~x & z)`. -/
def f (x y z : Nat) : Nat := Nat.lor (Nat.land x y) (Nat.land (bnot32 x) z)

/-- MD5 auxiliary function `g`: `(x & z) | (y & ~z)`. -/
def g (x y z : Nat) : Nat := Nat.lor (Nat.land x z) (Nat.land y (bnot32 z))

/-- MD5 auxiliary function `h`: `x ^ y ^ z`. -/
def h (x y z : Nat) : Nat := Nat.xor (Nat.xor x y) z

/-- MD5 auxiliary function `i`: `y ^ (x | ~z)`. -/
def i (x y z : Nat) : Nat := Nat.xor y (Nat.lor x (bnot32 z))

/-- MD5 `FF` transformation. -/
def ff (a b c d x s ac : Nat) : Nat :=
  addUnsigned (rotateLeft (addUnsigned a (addUnsigned (addUnsigned (f b c d) x) ac)) s) b

/-- MD5 `GG` transformation. -/
def gg (a b c d x s ac : Nat) : Nat :=
  addUnsigned (rotateLeft (addUnsigned a (addUnsigned (addUnsigned (g b c d) x) ac)) s) b

/-- MD5 `HH` transformation. -/
def hh (a b c d x s ac : Nat) : Nat :=
  addUnsigned (rotateLeft (addUnsigned a (addUnsigned (addUnsigned (h b c d) x) ac)) s) b

/-- MD5 `II` transformation. -/
def ii (a b c d x s ac : Nat) : Nat :=
  addUnsigned (rotateLeft (addUnsigned a (addUnsigned (addUnsigned (i b c d) x) ac)) s) b

/-- Little-endian word assembled from bytes `4*w .. 4*w+3` of the message
(missing bytes read as `0`, like the `undefined | x` coercion in the JS
`wordArray` fill loop). -/
def baseWord (bytes : List Nat) (w : Nat) : Nat :=
  bytes.getD (4 * w) 0 + bytes.getD (4 * w + 1) 0 * 256 +
    bytes.getD (4 * w + 2) 0 * 65536 + bytes.getD (4 * w + 3) 0 * 16777216

/-- `convertToWordArray` from `src/utils/md5.ts`.  The imperative fill loop
is replaced by a per-index description: the `0x80` terminator is or-ed into
the word at byte position `messageLength`, and the two final words hold the
bit length (`messageLength << 3` and `messageLength >>> 29` as JS 32-bit
patterns); the final two assignments in the source overwrite earlier
content, hence they are tested first. -/
def convertToWordArray (bytes : List Nat) : List Nat :=
  let messageLength := bytes.length
  let numberOfWordsTemp1 := messageLength + 8
  let numberOfWordsTemp2 := (numberOfWordsTemp1 - numberOfWordsTemp1 % 64) / 64
  let numberOfWords := (numberOfWordsTemp2 + 1) * 16
  let markerWord := messageLength / 4
  let markerBits := 128 * 2 ^ (messageLength % 4 * 8)
  (List.range numberOfWords).map (fun wc =>
    if wc = numberOfWords - 2 then messageLength % w32 * 8 % w32
    else if wc = numberOfWords - 1 then messageLength % w32 / 2 ^ 29
    else if wc = markerWord then Nat.lor (baseWord bytes wc) markerBits
    else baseWord bytes wc)

/-- The sixteen hexadecimal digits, lowercase. -/
def hexChars : List Char := "0123456789abcdef".data

/-- One lowercase hex digit. -/
def hexDigit (n : Nat) : Char := hexChars.getD n '0'

/-- `wordToHex` from `src/utils/md5.ts`: the four bytes of the word, least
significant first, each as two zero-padded lowercase hex digits (the source
builds `'0' + byte.toString(16)` and keeps the last two characters, which
is the same thing). -/
def wordToHex (value : Nat) : List Char :=
  ((List.range 4).map (fun count =>
    let byte := value / 2 ^ (count * 8) % 256
    [hexDigit (byte / 16), hexDigit (byte % 16)])).flatten

/-- JS `str.replace(/\r\n/g, '\n')` on code-unit lists (left-to-right,
non-overlapping). -/
def stripCrLf : List Nat → List Nat
  | [] => []
  | 13 :: 10 :: rest => 10 :: stripCrLf rest
  | c :: rest => c :: stripCrLf rest

/-- One step of `utf8Encode` from `src/utils/md5.ts`, applied to a single
UTF-16 code unit `c` (`charCodeAt` value): `< 128` kept, `< 2048` two
bytes, otherwise three bytes.  Surrogate halves are encoded individually,
exactly as the source does. -/
def utf8EncodeUnit (c : Nat) : List Nat :=
  if c < 128 then [c]
  else if c < 2048 then [Nat.lor (c / 64) 192, Nat.lor (c % 64) 128]
  else [Nat.lor (c / 4096) 224, Nat.lor (c / 64 % 64) 128, Nat.lor (c % 64) 128]

/-- `utf8Encode` from `src/utils/md5.ts` on code-unit lists. -/
def utf8Encode (units : List Nat) : List Nat :=
  ((stripCrLf units).map utf8EncodeUnit).flatten

/-- UTF-16 code units of one Unicode code point (JS string semantics:
BMP code points are one unit, astral code points a surrogate pair). -/
def charCodeUnits (c : Char) : List Nat :=
  let n := c.toNat
  if n < 65536 then [n]
  else [55296 + (n - 65536) / 1024, 56320 + (n - 65536) % 1024]

/-- The `charCodeAt` sequence of a string, i.e. its UTF-16 code units. -/
def toCodeUnits (s : String) : List Nat := (s.data.map charCodeUnits).flatten

/-- One 64-byte MD5 block transform: the 64 steps of `hashMD5` from
`src/utils/md5.ts`, ported literally, plus the final feed-forward
additions. -/
def md5Chunk (st : Nat × Nat × Nat × Nat)
    (x0 x1 x2 x3 x4 x5 x6 x7 x8 x9 x10 x11 x12 x13 x14 x15 : Nat) :
    Nat × Nat × Nat × Nat :=
  let (a0, b0, c0, d0) := st
  -- Round 1 (shift amounts S11=7, S12=12, S13=17, S14=22)
  let a := ff a0 b0 c0 d0 x0 7 0xd76aa478
  let d := ff d0 a b0 c0 x1 12 0xe8c7b756
  let c := ff c0 d a b0 x2 17 0x242070db
  let b := ff b0 c d a x3 22 0xc1bdceee
  let a := ff a b c d x4 7 0xf57c0faf
  let d := ff d a b c x5 12 0x4787c62a
  let c := ff c d a b x6 17 0xa8304613
  let b := ff b c d a x7 22 0xfd469501
  let a := ff a b c d x8 7 0x698098d8
  let d := ff d a b c x9 12 0x8b44f7af
  let c := ff c d a b x10 17 0xffff5bb1
  let b := ff b c d a x11 22 0x895cd7be
  let a := ff a b c d x12 7 0x6b901122
  let d := ff d a b c x13 12 0xfd987193
  let c := ff c d a b x14 17 0xa679438e
  let b := ff b c d a x15 22 0x49b40821
  -- Round 2 (S21=5, S22=9, S23=14, S24=20)
  let a := gg a b c d x1 5 0xf61e2562
  let d := gg d a b c x6 9 0xc040b340
  let c := gg c d a b x11 14 0x265e5a51
  let b := gg b c d a x0 20 0xe9b6c7aa
  let a := gg a b c d x5 5 0xd62f105d
  let d := gg d a b c x10 9 0x2441453
  let c := gg c d a b x15 14 0xd8a1e681
  let b := gg b c d a x4 20 0xe7d3fbc8
  let a := gg a b c d x9 5 0x21e1cde6
  let d := gg d a b c x14 9 0xc33707d6
  let c := gg c d a b x3 14 0xf4d50d87
  let b := gg b c d a x8 20 0x455a14ed
  let a := gg a b c d x13 5 0xa9e3e905
  let d := gg d a b c x2 9 0xfcefa3f8
  let c := gg c d a b x7 14 0x676f02d9
  let b := gg b c d a x12 20 0x8d2a4c8a
  -- Round 3 (S31=4, S32=11, S33=16, S34=23)
  let a := hh a b c d x5 4 0xfffa3942
  let d := hh d a b c x8 11 0x8771f681
  let c := hh c d a b x11 16 0x6d9d6122
  let b := hh b c d a x14 23 0xfde5380c
  let a := hh a b c d x1 4 0xa4beea44
  let d := hh d a b c x4 11 0x4bdecfa9
  let c := hh c d a b x7 16 0xf6bb4b60
  let b := hh b c d a x10 23 0xbebfbc70
  let a := hh a b c d x13 4 0x289b7ec6
  let d := hh d a b c x0 11 0xeaa127fa
  let c := hh c d a b x3 16 0xd4ef3085
  let b := hh b c d a x6 23 0x4881d05
  let a := hh a b c d x9 4 0xd9d4d039
  let d := hh d a b c x12 11 0xe6db99e5
  let c := hh c d a b x15 16 0x1fa27cf8
  let b := hh b c d a x2 23 0xc4ac5665
  -- Round 4 (S41=6, S42=10, S43=15, S44=21)
  let a := ii a b c d x0 6 0xf4292244
  let d := ii d a b c x7 10 0x432aff97
  let c := ii c d a b x14 15 0xab9423a7
  let b := ii b c d a x5 21 0xfc93a039
  let a := ii a b c d x12 6 0x655b59c3
  let d := ii d a b c x3 10 0x8f0ccc92
  let c := ii c d a b x10 15 0xffeff47d
  let b := ii b c d a x1 21 0x85845dd1
  let a := ii a b c d x8 6 0x6fa87e4f
  let d := ii d a b c x15 10 0xfe2ce6e0
  let c := ii c d a b x6 15 0xa3014314
  let b := ii b c d a x13 21 0x4e0811a1
  let a := ii a b c d x4 6 0xf7537e82
  let d := ii d a b c x11 10 0xbd3af235
  let c := ii c d a b x2 15 0x2ad7d2bb
  let b := ii b c d a x9 21 0xeb86d391
  (addUnsigned a a0, addUnsigned b b0, addUnsigned c c0, addUnsigned d d0)

/-- The main 16-words-at-a-time loop of `hashMD5` (`for k += 16`); the
fuel argument is the number of 16-word blocks, making the recursion
structural on `Nat`. -/
def md5Blocks : Nat → List Nat → Nat × Nat × Nat × Nat → Nat × Nat × Nat × Nat
  | 0, _, st => st
  | fuel + 1, x, st =>
      md5Blocks fuel (x.drop 16)
        (md5Chunk st (x.getD 0 0) (x.getD 1 0) (x.getD 2 0) (x.getD 3 0)
          (x.getD 4 0) (x.getD 5 0) (x.getD 6 0) (x.getD 7 0)
          (x.getD 8 0) (x.getD 9 0) (x.getD 10 0) (x.getD 11 0)
          (x.getD 12 0) (x.getD 13 0) (x.getD 14 0) (x.getD 15 0))

/-- The four state words produced by `hashMD5` for a given code-unit
message, before hex encoding. -/
def md5Core (units : List Nat) : Nat × Nat × Nat × Nat :=
  let x := convertToWordArray (utf8Encode units)
  md5Blocks (x.length / 16) x (0x67452301, 0xefcdab89, 0x98badcfe, 0x10325476)

/-- `hashMD5` from `src/utils/md5.ts` on code-unit lists; the final
`toLowerCase` of the source is the identity here because `hexDigit`
already produces lowercase digits. -/
def hashMD5Units (units : List Nat) : List Char :=
  let st := md5Core units
  wordToHex st.1 ++ wordToHex st.2.1 ++ wordToHex st.2.2.1 ++ wordToHex st.2.2.2

/-- `hashMD5` on Lean strings (UTF-16 code units fed to the core). -/
def hashMD5 (s : String) : String := ⟨hashMD5Units (toCodeUnits s)⟩

/-- Self-test of the MD5 embedding against the RFC 1321 digest of the
empty message. -/
theorem hashMD5_selftest_empty : hashMD5 "" = "d41d8cd98f00b204e9800998ecf8427e" := by decide

/-- Self-test of the MD5 embedding against the RFC 1321 digest of
`"abc"`. -/
theorem hashMD5_selftest_abc : hashMD5 "abc" = "900150983cd24fb0d6963f7d28e17f72" := by decide

/-- Self-test of the MD5 embedding on a two-block message (a 113-byte
user-agent string), exercising the multi-block path. -/
theorem hashMD5_selftest_two_blocks : hashMD5 "Mozilla/5.0 (Windows NT 10.0; Win64; x64) AppleWebKit/537.36 (KHTML, like Gecko) Chrome/120.0.0.0 Safari/537.36" = "9c1ce27f08b16479d2e17743062b28ed" := by decide

/-! ## String helpers (JS semantics on code points)

User-agent strings in the repository are ASCII, so ASCII-only lowercasing
is faithful to JS `toLowerCase` on every input the claims touch. -/

/-- ASCII lowercase of one character. -/
def toLowerChar (c : Char) : Char :=
  if 'A' ≤ c ∧ c ≤ 'Z' then Char.ofNat (c.toNat + 32) else c

/-- ASCII lowercase of a character list. -/
def toLowerStr (s : List Char) : List Char := s.map toLowerChar

/-- Does `pat` occur at the head of `hay`? -/
def matchAt : List Char → List Char → Bool
  | _, [] => true
  | [], _ :: _ => false
  | c :: hay, p :: pat => c == p && matchAt hay pat

/-- Does `pat` occur anywhere in `hay` (contiguously)? -/
def hasSub : List Char → List Char → Bool
  | [], pat => pat.isEmpty
  | hay@(_ :: rest), pat => matchAt hay pat || hasSub rest pat

/-- Does the predicate hold at some suffix position (regex scan)? -/
def scanPos (p : List Char → Bool) : List Char → Bool
  | [] => p []
  | l@(_ :: rest) => p l || scanPos p rest

/-- Case-insensitive substring test: `/<pat>/i.test(src)` for a literal
pattern (pattern written lowercase). -/
def containsCI (src : List Char) (pat : String) : Bool :=
  hasSub (toLowerStr src) pat.data

/-- Decimal digit. -/
def isDigitCh (c : Char) : Bool := '0' ≤ c && c ≤ '9'

/-- JS regex `\w`: ASCII letters, digits and underscore. -/
def isWordCh (c : Char) : Bool :=
  isDigitCh c || ('a' ≤ c && c ≤ 'z') || ('A' ≤ c && c ≤ 'Z') || c == '_'

/-- The character class `[\d\w.\-]` used by the version patterns. -/
def isVerCh (c : Char) : Bool := isWordCh c || c == '.' || c == '-'

/-- JS regex `\s` (ASCII part; the user-agent strings involved contain no
exotic whitespace). -/
def isWs (c : Char) : Bool :=
  c == ' ' || c == '\t' || c == '\n' || c == '\r' || c == '\x0b' || c == '\x0c'

/-- `source.replace(/^\s*/, '').replace(/\s*$/, '')` from `parse`. -/
def trimWs (s : List Char) : List Char :=
  ((s.dropWhile isWs).reverse.dropWhile isWs).reverse

/-- Digits of a decimal numeral, most significant first, as a `Nat`
(JS `parseInt` on an all-digit capture). -/
def digitsToNat (l : List Char) : Nat :=
  l.foldl (fun acc c => acc * 10 + (c.toNat - 48)) 0

/-- `Array.prototype.join(sep)` on a list of strings. -/
def joinSep (sep : String) : List String → String
  | [] => ""
  | [x] => x
  | x :: y :: xs => x ++ sep ++ joinSep sep (y :: xs)

/-- `String.prototype.slice(a, b)` (for `a ≤ b ≤ length`, the only uses). -/
def strSlice (s : String) (a b : Nat) : String := ⟨(s.data.drop a).take (b - a)⟩

/-- `String.prototype.slice(a)`. -/
def strSliceFrom (s : String) (a : Nat) : String := ⟨s.data.drop a⟩

/-! ## Pattern tables

`src/core/DeviceUUID.ts` imports its regex tables from `src/constants`,
a file that is not part of the provided sources.  The tables below are
modelled from the spec (§4.1 rule lists) and from the identical tables
that ship in this repository's v1 library `lib/device-uuid.js`; the
handful of v2-only additions (`Windows11`, the post-Sierra macOS names)
are modelled from the spec and the repository's own integration tests. -/

namespace BROWSER_PATTERNS

def Edge (src : List Char) : Bool := containsCI src "edge"

def PhantomJS (src : List Char) : Bool := containsCI src "phantomjs"

def Konqueror (src : List Char) : Bool := containsCI src "konqueror"

def Amaya (src : List Char) : Bool := containsCI src "amaya"

def Epiphany (src : List Char) : Bool := containsCI src "epiphany"

def SeaMonkey (src : List Char) : Bool := containsCI src "seamonkey"

def Flock (src : List Char) : Bool := containsCI src "flock"

def OmniWeb (src : List Char) : Bool := containsCI src "omniweb"

/-- `/opera|OPR/i` -/
def Opera (src : List Char) : Bool := containsCI src "opera" || containsCI src "opr"

/-- `/chromium|crios/i` -/
def Chromium (src : List Char) : Bool := containsCI src "chromium" || containsCI src "crios"

def Chrome (src : List Char) : Bool := containsCI src "chrome"

def Safari (src : List Char) : Bool := containsCI src "safari"

/-- `/msapphost/i` -/
def WinJs (src : List Char) : Bool := containsCI src "msapphost"

/-- `/msie|trident/i` -/
def IE (src : List Char) : Bool := containsCI src "msie" || containsCI src "trident"

def PS3 (src : List Char) : Bool := containsCI src "playstation 3"

def PSP (src : List Char) : Bool := containsCI src "playstation portable"

def Firefox (src : List Char) : Bool := containsCI src "firefox"

/-- `/UCBrowser/i` -/
def UC (src : List Char) : Bool := containsCI src "ucbrowser"

end BROWSER_PATTERNS

/-- The non-`Mozilla` fallback of `getBrowser`:
`/^([\d\w-.]+)\/[\d\w.-]+/i` anchored at the start; returns the captured
name (original case) when the whole shape matches. -/
def genericNameCapture (src : List Char) : Option (List Char) :=
  let cap := src.takeWhile isVerCh
  if cap.isEmpty then none
  else match src.drop cap.length with
    | '/' :: rest => if (rest.takeWhile isVerCh).isEmpty then none else some cap
    | _ => none

namespace OS_PATTERNS

/-- v2-only `Windows11` detection, modelled from the spec and the repo's
integration tests: a `windows nt 10.0` token together with a Chromium
`chrome/<major>` (or `edg/<major>`) marker whose major version the caller
compares against 96. Returns the captured major version. -/
def Windows11 (src : List Char) : Option Nat :=
  let lower := toLowerStr src
  if !hasSub lower "windows nt 10.0".data then none
  else
    let grab := fun (tok : List Char) =>
      let rec go : List Char → Option Nat
        | [] => none
        | l@(_ :: rest) =>
          if matchAt l tok then
            let ds := (l.drop tok.length).takeWhile isDigitCh
            if ds.isEmpty then go rest else some (digitsToNat ds)
          else go rest
      go lower
    match grab "chrome/".data with
    | some v => some v
    | none => grab "edg/".data

def Windows10 (src : List Char) : Bool := containsCI src "windows nt 10.0"

def WindowsVista (src : List Char) : Bool := containsCI src "windows nt 6.0"

def Windows7 (src : List Char) : Bool := containsCI src "windows nt 6.1"

def Windows8 (src : List Char) : Bool := containsCI src "windows nt 6.2"

def Windows81 (src : List Char) : Bool := containsCI src "windows nt 6.3"

def Windows2003 (src : List Char) : Bool := containsCI src "windows nt 5.2"

def WindowsXP (src : List Char) : Bool := containsCI src "windows nt 5.1"

def Windows2000 (src : List Char) : Bool := containsCI src "windows nt 5.0"

/-- `/windows phone 8\./` — case-sensitive in the source table. -/
def WindowsPhone8 (src : List Char) : Bool := hasSub src "windows phone 8.".data

def Linux64 (src : List Char) : Bool := containsCI src "linux x86_64"

def Linux (src : List Char) : Bool := containsCI src "linux"

/-- `/cros/i` -/
def ChromeOS (src : List Char) : Bool := containsCI src "cros"

def Wii (src : List Char) : Bool := containsCI src "wii"

def PS3 (src : List Char) : Bool := containsCI src "playstation 3"

def PSP (src : List Char) : Bool := containsCI src "playstation portable"

end OS_PATTERNS

/-- `/os x 10[._]<v>/i`, optionally guarded by `(\D|$)` (used by the
`10.1` pattern so that `10.10`–`10.15` do not match it). -/
def osxVersionPat (v : String) (guarded : Bool) (src : List Char) : Bool :=
  scanPos (fun l =>
    matchAt l "os x 10".data &&
    (match l.drop 7 with
      | sep :: rest =>
        (sep == '.' || sep == '_') && matchAt rest v.data &&
          (!guarded ||
            (match rest.drop v.length with
              | [] => true
              | c :: _ => !isDigitCh c))
      | [] => false)) (toLowerStr src)

namespace OS_PATTERNS

def OSXCheetah (src : List Char) : Bool := osxVersionPat "0" false src

/-- `/os x 10[._]1(\D|$)/i` -/
def OSXPuma (src : List Char) : Bool := osxVersionPat "1" true src

def OSXJaguar (src : List Char) : Bool := osxVersionPat "2" false src

def OSXPanther (src : List Char) : Bool := osxVersionPat "3" false src

def OSXTiger (src : List Char) : Bool := osxVersionPat "4" false src

def OSXLeopard (src : List Char) : Bool := osxVersionPat "5" false src

def OSXSnowLeopard (src : List Char) : Bool := osxVersionPat "6" false src

def OSXLion (src : List Char) : Bool := osxVersionPat "7" false src

def OSXMountainLion (src : List Char) : Bool := osxVersionPat "8" false src

def OSXMavericks (src : List Char) : Bool := osxVersionPat "9" false src

def OSXYosemite (src : List Char) : Bool := osxVersionPat "10" false src

def OSXElCapitan (src : List Char) : Bool := osxVersionPat "11" false src

def OSXSierra (src : List Char) : Bool := osxVersionPat "12" false src

/-- v2-only, modelled from the spec (macOS codenames tested oldest to
newest). -/
def OSXHighSierra (src : List Char) : Bool := osxVersionPat "13" false src

/-- v2-only, modelled from the spec. -/
def OSXMojave (src : List Char) : Bool := osxVersionPat "14" false src

/-- v2-only, modelled from the spec. -/
def OSXCatalina (src : List Char) : Bool := osxVersionPat "15" false src

/-- v2-only, modelled from the spec. -/
def MacOSBigSur (src : List Char) : Bool := containsCI src "mac os x 11"

/-- v2-only, modelled from the spec. -/
def MacOSMonterey (src : List Char) : Bool := containsCI src "mac os x 12"

/-- v2-only, modelled from the spec. -/
def MacOSVentura (src : List Char) : Bool := containsCI src "mac os x 13"

/-- v2-only, modelled from the spec. -/
def MacOSSonoma (src : List Char) : Bool := containsCI src "mac os x 14"

/-- v2-only, modelled from the spec. -/
def MacOSSequoia (src : List Char) : Bool := containsCI src "mac os x 15"

def Mac (src : List Char) : Bool := containsCI src "os x"

end OS_PATTERNS

/-- `(\d+)[._](\d+)`: a nonempty digit run, a dot or underscore, then at
least one more digit. -/
def digitsSepDigits (l : List Char) : Bool :=
  let ds := l.takeWhile isDigitCh
  !ds.isEmpty &&
    (match l.drop ds.length with
      | sep :: c :: _ => (sep == '.' || sep == '_') && isDigitCh c
      | _ => false)

namespace OS_PATTERNS

/-- `/\(iPad.*os (\d+)[._](\d+)/i` -/
def iPad (src : List Char) : Bool :=
  scanPos (fun l =>
    matchAt l "(ipad".data &&
      scanPos (fun m => matchAt m "os ".data && digitsSepDigits (m.drop 3)) (l.drop 5))
    (toLowerStr src)

/-- `/\(iPhone.*os (\d+)[._](\d+)/i` -/
def iPhone (src : List Char) : Bool :=
  scanPos (fun l =>
    matchAt l "(iphone".data &&
      scanPos (fun m => matchAt m "os ".data && digitsSepDigits (m.drop 3)) (l.drop 7))
    (toLowerStr src)

/-- `/Bada\/(\d+)\.(\d+)/i` -/
def Bada (src : List Char) : Bool :=
  scanPos (fun l =>
    matchAt l "bada/".data &&
      (let after := l.drop 5
       let ds := after.takeWhile isDigitCh
       !ds.isEmpty &&
         (match after.drop ds.length with
           | '.' :: c :: _ => isDigitCh c
           | _ => false)))
    (toLowerStr src)

/-- `/curl\/(\d+)\.(\d+)\.(\d+)/i` -/
def Curl (src : List Char) : Bool :=
  scanPos (fun l =>
    matchAt l "curl/".data &&
      (let after := l.drop 5
       let d1 := after.takeWhile isDigitCh
       !d1.isEmpty &&
         (match after.drop d1.length with
           | '.' :: r1 =>
             let d2 := r1.takeWhile isDigitCh
             !d2.isEmpty &&
               (match r1.drop d2.length with
                 | '.' :: c :: _ => isDigitCh c
                 | _ => false)
           | _ => false)))
    (toLowerStr src)

end OS_PATTERNS

namespace PLATFORM_PATTERNS

def Windows (src : List Char) : Bool := containsCI src "windows nt"

def WindowsPhone (src : List Char) : Bool := containsCI src "windows phone"

def Mac (src : List Char) : Bool := containsCI src "macintosh"

def Curl (src : List Char) : Bool := containsCI src "curl"

def Android (src : List Char) : Bool := containsCI src "android"

def Blackberry (src : List Char) : Bool := containsCI src "blackberry"

def Linux (src : List Char) : Bool := containsCI src "linux"

def Wii (src : List Char) : Bool := containsCI src "wii"

def Playstation (src : List Char) : Bool := containsCI src "playstation"

def iPad (src : List Char) : Bool := containsCI src "ipad"

def iPod (src : List Char) : Bool := containsCI src "ipod"

def iPhone (src : List Char) : Bool := containsCI src "iphone"

def Samsung (src : List Char) : Bool := containsCI src "samsung"

end PLATFORM_PATTERNS

/-! ## Version extraction (`VERSION_PATTERNS` and `getBrowserVersion`)

Each extractor mirrors one regex of the `VERSION_PATTERNS` table (v1
table, `src/constants` being absent): it scans left to right for the
first position where the token matches and at least one
version-character follows, and captures the maximal version-character
run (in original case), exactly as the backtracking regex does. -/

/-- Capture `([\d\w.\-]+)` (or a custom class) right after a literal,
case-insensitively matched token. -/
def extractAfter (tok : String) (cls : Char → Bool) : List Char → Option (List Char)
  | [] => none
  | l@(_ :: rest) =>
    if matchAt (toLowerStr l) tok.data then
      let cap := (l.drop tok.length).takeWhile cls
      if cap.isEmpty then extractAfter tok cls rest else some cap
    else extractAfter tok cls rest

/-- `/msie\s([\d.]+[\d])/i`: digits-and-dots after `msie` + whitespace,
trimmed so the capture ends in a digit and has the shape the regex
requires. -/
def msieCapture : List Char → Option (List Char)
  | [] => none
  | l@(_ :: rest) =>
    if matchAt (toLowerStr l) "msie".data then
      match l.drop 4 with
      | c :: r =>
        if isWs c then
          let run := r.takeWhile (fun ch => isDigitCh ch || ch == '.')
          let cap := run.reverse.dropWhile (fun ch => ch == '.') |>.reverse
          if 2 ≤ cap.length && (match cap.getLast? with | some d => isDigitCh d | none => false)
          then some cap else msieCapture rest
        else msieCapture rest
      | [] => none
    else msieCapture rest

/-- `/trident\/\d+\.\d+;.*[rv:]+(\d+\.\d)/i`: in the real user agents this
captures the `rv:<maj>.<min-digit>` marker that follows a
`Trident/<v>.<v>;` token. -/
def tridentRvCapture (src : List Char) : Option (List Char) :=
  let lower := toLowerStr src
  let rec findRv : List Char → Option (List Char)
    | [] => none
    | l@(c :: rest) =>
      if c == 'r' || c == 'v' || c == ':' then
        let body := l.dropWhile (fun ch => ch == 'r' || ch == 'v' || ch == ':')
        let ds := body.takeWhile isDigitCh
        if !ds.isEmpty then
          match body.drop ds.length with
          | '.' :: d :: _ => if isDigitCh d then some (ds ++ ['.', d]) else findRv rest
          | _ => findRv rest
        else findRv rest
      else findRv rest
  let rec findTrident : List Char → Option (List Char)
    | [] => none
    | l@(_ :: rest) =>
      if matchAt l "trident/".data then
        let after := l.drop 8
        let d1 := after.takeWhile isDigitCh
        if !d1.isEmpty then
          match after.drop d1.length with
          | '.' :: r1 =>
            let d2 := r1.takeWhile isDigitCh
            if !d2.isEmpty then
              match r1.drop d2.length with
              | ';' :: r2 => findRv r2
              | _ => findTrident rest
            else findTrident rest
          | _ => findTrident rest
        else findTrident rest
      else findTrident rest
  findTrident lower

/-- `/([\d\w.\-]+)\)\s*$/i` (`Ps3`; with `allowMissingParen` also the
`Psp` variant `/([\d\w.\-]+)\)?\s*$/i`): the version run that ends the
string before a closing parenthesis and trailing whitespace. -/
def tailVersionCapture (allowMissingParen : Bool) (src : List Char) : Option (List Char) :=
  let rev := src.reverse.dropWhile isWs
  let rev2 := match rev with
    | ')' :: r => some r
    | r => if allowMissingParen then some r else none
  match rev2 with
  | none => none
  | some r =>
    let cap := (r.takeWhile isVerCh).reverse
    if cap.isEmpty then none else some cap

namespace VERSION_PATTERNS

/-- `/Edge\/([\d\w.\-]+)/i` -/
def Edge (src : List Char) : Option (List Char) := extractAfter "edge/" isVerCh src

/-- `/firefox\/([\d\w.\-]+)/i` -/
def Firefox (src : List Char) : Option (List Char) := extractAfter "firefox/" isVerCh src

/-- `/msie\s([\d.]+[\d])|trident\/\d+\.\d+;.*[rv:]+(\d+\.\d)/i`; the pair
holds the two capture groups. -/
def IE (src : List Char) : Option (List Char) × Option (List Char) :=
  match msieCapture src with
  | some c => (some c, none)
  | none =>
    match tridentRvCapture src with
    | some c => (none, some c)
    | none => (none, none)

/-- `/chrome\/([\d\w.\-]+)/i` -/
def Chrome (src : List Char) : Option (List Char) := extractAfter "chrome/" isVerCh src

/-- `/(?:chromium|crios)\/([\d\w.\-]+)/i` -/
def Chromium (src : List Char) : Option (List Char) :=
  match extractAfter "chromium/" isVerCh src with
  | some c => some c
  | none => extractAfter "crios/" isVerCh src

/-- `/version\/([\d\w.\-]+)/i` -/
def Safari (src : List Char) : Option (List Char) := extractAfter "version/" isVerCh src

/-- `/version\/([\d\w.\-]+)|OPR\/([\d\w.\-]+)/i`; the pair holds the two
capture groups (the alternation is resolved by whichever token occurs). -/
def Opera (src : List Char) : Option (List Char) × Option (List Char) :=
  match extractAfter "version/" isVerCh src with
  | some c => (some c, none)
  | none =>
    match extractAfter "opr/" isVerCh src with
    | some c => (none, some c)
    | none => (none, none)

/-- `/([\d\w.\-]+)\)\s*$/i` -/
def Ps3 (src : List Char) : Option (List Char) := tailVersionCapture false src

/-- `/([\d\w.\-]+)\)?\s*$/i` -/
def Psp (src : List Char) : Option (List Char) := tailVersionCapture true src

/-- `/amaya\/([\d\w.\-]+)/i` -/
def Amaya (src : List Char) : Option (List Char) := extractAfter "amaya/" isVerCh src

/-- `/seamonkey\/([\d\w.\-]+)/i` -/
def SeaMonkey (src : List Char) : Option (List Char) := extractAfter "seamonkey/" isVerCh src

/-- `/omniweb\/v([\d\w.\-]+)/i` -/
def OmniWeb (src : List Char) : Option (List Char) := extractAfter "omniweb/v" isVerCh src

/-- `/flock\/([\d\w.\-]+)/i` -/
def Flock (src : List Char) : Option (List Char) := extractAfter "flock/" isVerCh src

/-- `/epiphany\/([\d\w.\-]+)/i` -/
def Epiphany (src : List Char) : Option (List Char) := extractAfter "epiphany/" isVerCh src

/-- `/msapphost\/([\d\w.\-]+)/i` -/
def WinJs (src : List Char) : Option (List Char) := extractAfter "msapphost/" isVerCh src

/-- `/phantomjs\/([\d\w.\-]+)/i` -/
def PhantomJS (src : List Char) : Option (List Char) := extractAfter "phantomjs/" isVerCh src

/-- `/UCBrowser\/([\d\w.]+)/i` (no dash in this class). -/
def UC (src : List Char) : Option (List Char) :=
  extractAfter "ucbrowser/" (fun c => isWordCh c || c == '.') src

end VERSION_PATTERNS

/-- The generic fallback of `getBrowserVersion`:
`new RegExp(browser + '[\\/ ]([\\d\\w.\\-]+)', 'i')`. -/
def genericVersionCapture (browser : String) (src : List Char) : Option (List Char) :=
  let tok := toLowerStr browser.data
  let rec go : List Char → Option (List Char)
    | [] => none
    | l@(_ :: rest) =>
      if matchAt (toLowerStr l) tok then
        match l.drop tok.length with
        | c :: r =>
          if c == '/' || c == ' ' then
            let cap := r.takeWhile isVerCh
            if cap.isEmpty then go rest else some cap
          else go rest
        | [] => none
      else go rest
  go src

/-! ## Bot detection

`IS_BOT_REGEXP` is `new RegExp('^.*(' + BOTS.join('|') + ').*$')` applied
to the lowercased source.  The greedy leading `.*` makes the group match
the rightmost occurrence; among alternatives starting at the same
position, the first in `BOTS` order wins.

The `BOTS` list is modelled from this repository's v1 library
`lib/device-uuid.js` (`src/constants` is absent); the `Embedly` entry is
kept verbatim — capitalised, it can never match the lowercased source,
exactly as in v1. -/
def BOTS : List String :=
  ["+https://developers.google.com/+/web/snippet/",
   "googlebot", "baiduspider", "gurujibot", "yandexbot", "slurp",
   "msnbot", "bingbot", "facebookexternalhit", "linkedinbot",
   "twitterbot", "slackbot", "telegrambot", "applebot", "pingdom",
   "tumblr ", "Embedly", "spbot"]

/-- First `BOTS` entry matching at the head of `l`. -/
def botAt (l : List Char) : Option String :=
  BOTS.foldr (fun b acc => if matchAt l b.data then some b else acc) none

/-- The rightmost bot-token occurrence (see `IS_BOT_REGEXP` above). -/
def lastBotMatch : List Char → Option String
  | [] => none
  | l@(_ :: rest) =>
    match lastBotMatch rest with
    | some b => some b
    | none => botAt l

/-- `/smart-tv|smarttv|googletv|appletv|hbbtv|pov_tv|netcast.tv/gi`
(the `.` in `netcast.tv` is a regex wildcard). -/
def smartTVPattern (lower : List Char) : Bool :=
  hasSub lower "smart-tv".data || hasSub lower "smarttv".data ||
  hasSub lower "googletv".data || hasSub lower "appletv".data ||
  hasSub lower "hbbtv".data || hasSub lower "pov_tv".data ||
  scanPos (fun l => matchAt l "netcast".data &&
    (match l.drop 7 with
      | _ :: r => matchAt r "tv".data
      | [] => false)) lower

/-- The Kindle Fire device codes of `testKindleFire`
(`/KFOT/gi` … `/KFMAWI/gi`, all case-insensitive). -/
def kindleCodes : List String :=
  ["kfot", "kftt", "kfjwi", "kfjwa", "kfsowi", "kfthwi", "kfthwa",
   "kfapwi", "kfapwa", "kfmawi"]

/-! ## The agent record (`AgentInfo` from `src/types`)

The two function-valued fields (`hashInt`, `hashMD5`) and the always
empty `geoIp` object are omitted: they carry no device data and never
enter any computation modelled here. -/

/-- JS `boolean | string` values (`isBot`, `isSmartTV`). -/
inductive BoolStr where
  | bool (b : Bool)
  | str (s : String)
deriving DecidableEq, Repr

/-- JS truthiness of a `boolean | string` value. -/
def BoolStr.truthy : BoolStr → Bool
  | .bool b => b
  | .str s => !(s == "")

/-- JS stringification (as used by `Array.prototype.join`). -/
def BoolStr.jsString : BoolStr → String
  | .bool b => if b then "true" else "false"
  | .str s => s

structure AgentInfo where
  isMobile : Bool
  isDesktop : Bool
  isTablet : Bool
  isBot : BoolStr
  isSmartTV : BoolStr
  isTouchScreen : Bool
  isiPad : Bool
  isiPod : Bool
  isiPhone : Bool
  isAndroid : Bool
  isBlackberry : Bool
  isSamsung : Bool
  isRaspberry : Bool
  isAndroidTablet : Bool
  isWindowsPhone : Bool
  isOpera : Bool
  isIE : Bool
  isEdge : Bool
  isIECompatibilityMode : Bool
  isSafari : Bool
  isFirefox : Bool
  isWebkit : Bool
  isChrome : Bool
  isKonqueror : Bool
  isOmniWeb : Bool
  isSeaMonkey : Bool
  isFlock : Bool
  isAmaya : Bool
  isPhantomJS : Bool
  isEpiphany : Bool
  isWinJs : Bool
  isUC : Bool
  isWindows : Bool
  isLinux : Bool
  isLinux64 : Bool
  isMac : Bool
  isChromeOS : Bool
  isBada : Bool
  isKindleFire : Bool
  isSilk : Bool
  silkAccelerated : Bool
  isCaptive : Bool
  isCurl : Bool
  isAuthoritative : Bool
  colorDepth : Int
  pixelDepth : Int
  resolution : Int × Int
  cpuCores : Int
  language : String
  browser : String
  version : String
  os : String
  platform : String
  source : String
deriving DecidableEq, Repr

/-- `DEFAULT_AGENT` (modelled from the v1 `DefaultAgent` object and the
spec's all-false/"unknown" baseline; `src/constants` is absent). -/
def DEFAULT_AGENT : AgentInfo where
  isMobile := false
  isDesktop := false
  isTablet := false
  isBot := .bool false
  isSmartTV := .bool false
  isTouchScreen := false
  isiPad := false
  isiPod := false
  isiPhone := false
  isAndroid := false
  isBlackberry := false
  isSamsung := false
  isRaspberry := false
  isAndroidTablet := false
  isWindowsPhone := false
  isOpera := false
  isIE := false
  isEdge := false
  isIECompatibilityMode := false
  isSafari := false
  isFirefox := false
  isWebkit := false
  isChrome := false
  isKonqueror := false
  isOmniWeb := false
  isSeaMonkey := false
  isFlock := false
  isAmaya := false
  isPhantomJS := false
  isEpiphany := false
  isWinJs := false
  isUC := false
  isWindows := false
  isLinux := false
  isLinux64 := false
  isMac := false
  isChromeOS := false
  isBada := false
  isKindleFire := false
  isSilk := false
  silkAccelerated := false
  isCaptive := false
  isCurl := false
  isAuthoritative := true
  colorDepth := -1
  pixelDepth := -1
  resolution := (0, 0)
  cpuCores := -1
  language := "unknown"
  browser := "unknown"
  version := "unknown"
  os := "unknown"
  platform := "unknown"
  source := ""

/-- The ambient environment read by `src/utils/environment.ts`
(`getUserAgent`, `getLanguage`, …): external collaborators of the
classifier, supplied as a parameter. -/
structure Env where
  userAgent : String
  language : String
  colorDepth : Int
  pixelDepth : Int
  resolution : Int × Int
  cpuCores : Int
  touchScreen : Bool
deriving DecidableEq, Repr

/-! ## The classifier (`src/core/DeviceUUID.ts`)

Each method of the class mutates `this.agent`; here every step is a pure
function `AgentInfo → AgentInfo` (plus the returned name where the source
returns one), threaded in the exact order of `parse`. -/

/-! Single-flag setters: each mirrors one `this.agent.<flag> = true`
assignment of the source's rule bodies (kept as named helpers so that
goals about the rule chains stay small). -/

def setWindows (a : AgentInfo) : AgentInfo := { a with isWindows := true }

def setChromeOS (a : AgentInfo) : AgentInfo := { a with isChromeOS := true }

def setMac (a : AgentInfo) : AgentInfo := { a with isMac := true }

def setiPadFlag (a : AgentInfo) : AgentInfo := { a with isiPad := true }

def setiPhoneFlag (a : AgentInfo) : AgentInfo := { a with isiPhone := true }

def setiPodFlag (a : AgentInfo) : AgentInfo := { a with isiPod := true }

def setBada (a : AgentInfo) : AgentInfo := { a with isBada := true }

def setCurl (a : AgentInfo) : AgentInfo := { a with isCurl := true }

def setWindowsPhone (a : AgentInfo) : AgentInfo := { a with isWindowsPhone := true }

def setAndroid (a : AgentInfo) : AgentInfo := { a with isAndroid := true }

def setBlackberry (a : AgentInfo) : AgentInfo := { a with isBlackberry := true }

def setSamsung (a : AgentInfo) : AgentInfo := { a with isSamsung := true }

def setEdge (a : AgentInfo) : AgentInfo := { a with isEdge := true }

def setPhantomJS (a : AgentInfo) : AgentInfo := { a with isPhantomJS := true }

def setKonqueror (a : AgentInfo) : AgentInfo := { a with isKonqueror := true }

def setAmaya (a : AgentInfo) : AgentInfo := { a with isAmaya := true }

def setEpiphany (a : AgentInfo) : AgentInfo := { a with isEpiphany := true }

def setSeaMonkey (a : AgentInfo) : AgentInfo := { a with isSeaMonkey := true }

def setFlock (a : AgentInfo) : AgentInfo := { a with isFlock := true }

def setOmniWeb (a : AgentInfo) : AgentInfo := { a with isOmniWeb := true }

def setOpera (a : AgentInfo) : AgentInfo := { a with isOpera := true }

def setChrome (a : AgentInfo) : AgentInfo := { a with isChrome := true }

def setSafari (a : AgentInfo) : AgentInfo := { a with isSafari := true }

def setWinJsFlag (a : AgentInfo) : AgentInfo := { a with isWinJs := true }

def setIE (a : AgentInfo) : AgentInfo := { a with isIE := true }

def setFirefox (a : AgentInfo) : AgentInfo := { a with isFirefox := true }

def setUC (a : AgentInfo) : AgentInfo := { a with isUC := true }


/-- The Linux-64 rule sets both flags. -/
def setLinux64 (a : AgentInfo) : AgentInfo := { a with isLinux := true, isLinux64 := true }

/-- The Linux rule. -/
def setLinux (a : AgentInfo) : AgentInfo := { a with isLinux := true }

/-- The non-authoritative fallback of `getBrowser`. -/
def setNonAuthoritative (a : AgentInfo) : AgentInfo := { a with isAuthoritative := false }


/-- `getBrowser`: the fixed priority list of browser rules; first match
wins.  The final fallback (user agents not starting with `Mozilla` and
shaped `name/version`) extracts the name and marks the parse
non-authoritative. -/
def getBrowser (a : AgentInfo) (source : String) : AgentInfo × String :=
  let src := source.data
  if BROWSER_PATTERNS.Edge src then (setEdge a, "Edge")
  else if BROWSER_PATTERNS.PhantomJS src then (setPhantomJS a, "PhantomJS")
  else if BROWSER_PATTERNS.Konqueror src then (setKonqueror a, "Konqueror")
  else if BROWSER_PATTERNS.Amaya src then (setAmaya a, "Amaya")
  else if BROWSER_PATTERNS.Epiphany src then (setEpiphany a, "Epiphany")
  else if BROWSER_PATTERNS.SeaMonkey src then (setSeaMonkey a, "SeaMonkey")
  else if BROWSER_PATTERNS.Flock src then (setFlock a, "Flock")
  else if BROWSER_PATTERNS.OmniWeb src then (setOmniWeb a, "OmniWeb")
  else if BROWSER_PATTERNS.Opera src then (setOpera a, "Opera")
  else if BROWSER_PATTERNS.Chromium src then (setChrome a, "Chromium")
  else if BROWSER_PATTERNS.Chrome src then (setChrome a, "Chrome")
  else if BROWSER_PATTERNS.Safari src then (setSafari a, "Safari")
  else if BROWSER_PATTERNS.WinJs src then (setWinJsFlag a, "WinJs")
  else if BROWSER_PATTERNS.IE src then (setIE a, "IE")
  else if BROWSER_PATTERNS.PS3 src then (a, "ps3")
  else if BROWSER_PATTERNS.PSP src then (a, "psp")
  else if BROWSER_PATTERNS.Firefox src then (setFirefox a, "Firefox")
  else if BROWSER_PATTERNS.UC src then (setUC a, "UCBrowser")
  else if !matchAt src "Mozilla".data then
    match genericNameCapture src with
    | some cap => (setNonAuthoritative a, ⟨cap⟩)
    | none => (a, "unknown")
  else (a, "unknown")

/-- `getBrowserVersion`: the name-specific version regex for the browser
fixed by `getBrowser` (IE and Opera prefer their second capture group),
falling back to the generic `name[\/ ]version` pattern. -/
def getBrowserVersion (a : AgentInfo) (source : String) : String :=
  let src := source.data
  let fromCap : Option (List Char) → Option String := fun c => c.map (⟨·⟩)
  let viaMap : Option String :=
    match a.browser with
    | "Edge" => fromCap (VERSION_PATTERNS.Edge src)
    | "PhantomJS" => fromCap (VERSION_PATTERNS.PhantomJS src)
    | "Chrome" => fromCap (VERSION_PATTERNS.Chrome src)
    | "Chromium" => fromCap (VERSION_PATTERNS.Chromium src)
    | "Safari" => fromCap (VERSION_PATTERNS.Safari src)
    | "Opera" =>
      match VERSION_PATTERNS.Opera src with
      | (g1, g2) => if (g1.isSome || g2.isSome) then fromCap (g2.orElse (fun _ => g1)) else none
    | "Firefox" => fromCap (VERSION_PATTERNS.Firefox src)
    | "WinJs" => fromCap (VERSION_PATTERNS.WinJs src)
    | "IE" =>
      match VERSION_PATTERNS.IE src with
      | (g1, g2) => if (g1.isSome || g2.isSome) then fromCap (g2.orElse (fun _ => g1)) else none
    | "ps3" => fromCap (VERSION_PATTERNS.Ps3 src)
    | "psp" => fromCap (VERSION_PATTERNS.Psp src)
    | "Amaya" => fromCap (VERSION_PATTERNS.Amaya src)
    | "Epiphany" => fromCap (VERSION_PATTERNS.Epiphany src)
    | "SeaMonkey" => fromCap (VERSION_PATTERNS.SeaMonkey src)
    | "Flock" => fromCap (VERSION_PATTERNS.Flock src)
    | "OmniWeb" => fromCap (VERSION_PATTERNS.OmniWeb src)
    | "UCBrowser" => fromCap (VERSION_PATTERNS.UC src)
    | _ => none
  match viaMap with
  | some v => v
  | none =>
    if a.browser ≠ "unknown" then
      match genericVersionCapture a.browser src with
      | some cap => ⟨cap⟩
      | none => "unknown"
    else "unknown"

/-- The guard of the Windows 11 branch of `getOS`: the pattern matched
and the captured Chromium major version is at least 96. -/
def windows11Fires (src : List Char) : Bool :=
  match OS_PATTERNS.Windows11 src with
  | some v => 96 ≤ v
  | none => false

/-- `getOS`: the ordered OS rule chain of `src/core/DeviceUUID.ts`
(Windows 11 heuristic first, then the NT tokens, Linux before ChromeOS,
consoles, the macOS codenames, and — critically — `iPad`/`iPhone` before
the generic `Mac` rule). -/
def getOS (a : AgentInfo) (source : String) : AgentInfo × String :=
  let src := source.data
  if windows11Fires src then (setWindows a, "Windows 11")
  else if OS_PATTERNS.Windows10 src then (setWindows a, "Windows 10.0")
  else if OS_PATTERNS.WindowsVista src then (setWindows a, "Windows Vista")
  else if OS_PATTERNS.Windows7 src then (setWindows a, "Windows 7")
  else if OS_PATTERNS.Windows8 src then (setWindows a, "Windows 8")
  else if OS_PATTERNS.Windows81 src then (setWindows a, "Windows 8.1")
  else if OS_PATTERNS.Windows2003 src then (setWindows a, "Windows 2003")
  else if OS_PATTERNS.WindowsXP src then (setWindows a, "Windows XP")
  else if OS_PATTERNS.Windows2000 src then (setWindows a, "Windows 2000")
  else if OS_PATTERNS.WindowsPhone8 src then (a, "Windows Phone 8")
  else if OS_PATTERNS.Linux64 src then (setLinux64 a, "Linux 64")
  else if OS_PATTERNS.Linux src then (setLinux a, "Linux")
  else if OS_PATTERNS.ChromeOS src then (setChromeOS a, "Chrome OS")
  else if OS_PATTERNS.Wii src then (a, "Wii")
  else if OS_PATTERNS.PS3 src then (a, "Playstation")
  else if OS_PATTERNS.PSP src then (a, "Playstation")
  else if OS_PATTERNS.OSXCheetah src then (setMac a, "OS X Cheetah")
  else if OS_PATTERNS.OSXPuma src then (setMac a, "OS X Puma")
  else if OS_PATTERNS.OSXJaguar src then (setMac a, "OS X Jaguar")
  else if OS_PATTERNS.OSXPanther src then (setMac a, "OS X Panther")
  else if OS_PATTERNS.OSXTiger src then (setMac a, "OS X Tiger")
  else if OS_PATTERNS.OSXLeopard src then (setMac a, "OS X Leopard")
  else if OS_PATTERNS.OSXSnowLeopard src then (setMac a, "OS X Snow Leopard")
  else if OS_PATTERNS.OSXLion src then (setMac a, "OS X Lion")
  else if OS_PATTERNS.OSXMountainLion src then (setMac a, "OS X Mountain Lion")
  else if OS_PATTERNS.OSXMavericks src then (setMac a, "OS X Mavericks")
  else if OS_PATTERNS.OSXYosemite src then (setMac a, "OS X Yosemite")
  else if OS_PATTERNS.OSXElCapitan src then (setMac a, "OS X El Capitan")
  else if OS_PATTERNS.OSXSierra src then (setMac a, "macOS Sierra")
  else if OS_PATTERNS.OSXHighSierra src then (setMac a, "macOS High Sierra")
  else if OS_PATTERNS.OSXMojave src then (setMac a, "macOS Mojave")
  else if OS_PATTERNS.OSXCatalina src then (setMac a, "macOS Catalina")
  else if OS_PATTERNS.MacOSBigSur src then (setMac a, "macOS Big Sur")
  else if OS_PATTERNS.MacOSMonterey src then (setMac a, "macOS Monterey")
  else if OS_PATTERNS.MacOSVentura src then (setMac a, "macOS Ventura")
  else if OS_PATTERNS.MacOSSonoma src then (setMac a, "macOS Sonoma")
  else if OS_PATTERNS.MacOSSequoia src then (setMac a, "macOS Sequoia")
  else if OS_PATTERNS.iPad src then (setiPadFlag a, "iOS")
  else if OS_PATTERNS.iPhone src then (setiPhoneFlag a, "iOS")
  else if OS_PATTERNS.Mac src then (setMac a, "Mac OS")
  else if OS_PATTERNS.Bada src then (setBada a, "Bada")
  else if OS_PATTERNS.Curl src then (setCurl a, "Curl")
  else (a, "unknown")

/-- `getPlatform`: the independent platform rule chain. -/
def getPlatform (a : AgentInfo) (source : String) : AgentInfo × String :=
  let src := source.data
  if PLATFORM_PATTERNS.Windows src then (a, "Microsoft Windows")
  else if PLATFORM_PATTERNS.WindowsPhone src then (setWindowsPhone a, "Microsoft Windows Phone")
  else if PLATFORM_PATTERNS.Mac src then (a, "Apple Mac")
  else if PLATFORM_PATTERNS.Curl src then (a, "Curl")
  else if PLATFORM_PATTERNS.Android src then (setAndroid a, "Android")
  else if PLATFORM_PATTERNS.Blackberry src then (setBlackberry a, "Blackberry")
  else if PLATFORM_PATTERNS.Linux src then (a, "Linux")
  else if PLATFORM_PATTERNS.Wii src then (a, "Wii")
  else if PLATFORM_PATTERNS.Playstation src then (a, "Playstation")
  else if PLATFORM_PATTERNS.iPad src then (setiPadFlag a, "iPad")
  else if PLATFORM_PATTERNS.iPod src then (setiPodFlag a, "iPod")
  else if PLATFORM_PATTERNS.iPhone src then (setiPhoneFlag a, "iPhone")
  else if PLATFORM_PATTERNS.Samsung src then (setSamsung a, "Samsung")
  else (a, "unknown")

/-- `testBot`: the bot-token regex over the lowercased source; if it
fails and the parse was non-authoritative, fall back to `/bot/i`. -/
def testBot (a : AgentInfo) : AgentInfo :=
  match lastBotMatch (toLowerStr a.source.data) with
  | some b => { a with isBot := .str b }
  | none =>
    if !a.isAuthoritative then { a with isBot := .bool (containsCI a.source.data "bot") }
    else a

/-- `testSmartTV`: the Smart TV token regex; the source stores
`match[1] || true`, and the pattern has no capture group, so a match
always stores `true`. -/
def testSmartTV (a : AgentInfo) : AgentInfo :=
  if smartTVPattern (toLowerStr a.source.data) then { a with isSmartTV := .bool true } else a

/-- `testMobile`: Smart TVs are neither mobile nor desktop; the mobile
OS flags are checked before the desktop OS flags; an iPad is neither;
otherwise a literal `/mobile/i` token makes the agent mobile. -/
def testMobile (a : AgentInfo) : AgentInfo :=
  if a.isSmartTV.truthy then { a with isMobile := false, isDesktop := false }
  else if a.isAndroid || a.isSamsung || a.isiPhone || a.isiPod || a.isBada ||
      a.isBlackberry || a.isWindowsPhone then
    { a with isMobile := true, isDesktop := false }
  else if a.isiPad then { a with isMobile := false, isDesktop := false }
  else if a.isWindows || a.isLinux || a.isMac || a.isChromeOS then
    { a with isDesktop := true }
  else if containsCI a.source.data "mobile" then
    { a with isMobile := true, isDesktop := false }
  else a

/-- `testAndroidTablet`: Android without a `/mobile/i` token is a tablet,
and loses the mobile flag. -/
def testAndroidTablet (a : AgentInfo) : AgentInfo :=
  if a.isAndroid && !containsCI a.source.data "mobile" then
    { a with isAndroidTablet := true, isMobile := false }
  else a

/-- `testTablet`: iPad, Android tablet or Kindle Fire, or a literal
`/tablet/i` token. -/
def testTablet (a : AgentInfo) : AgentInfo :=
  let a := if a.isiPad || a.isAndroidTablet || a.isKindleFire then { a with isTablet := true } else a
  if containsCI a.source.data "tablet" then { a with isTablet := true } else a

/-- `/Trident\/(\d)\.0/i`: the single-digit Trident capture of
`testCompatibilityMode`. -/
def tridentCapture (src : List Char) : Option Nat :=
  let lower := toLowerStr src
  let rec go : List Char → Option Nat
    | [] => none
    | l@(_ :: rest) =>
      if matchAt l "trident/".data then
        match l.drop 8 with
        | d :: '.' :: '0' :: _ => if isDigitCh d then some (d.toNat - 48) else go rest
        | _ => go rest
      else go rest
  go lower

/-- Is `parseFloat(version) === 7`?  True exactly when the leading
numeric prefix of the string has integer part `7` and an all-zero
fractional part (`"7"`, `"7.0"`, `"7.00"`, …). -/
def parseFloatIsSeven (v : String) : Bool :=
  let ds := v.data.takeWhile isDigitCh
  ds == ['7'] &&
    (match v.data.drop ds.length with
      | '.' :: rest =>
        let fs := rest.takeWhile isDigitCh
        fs.all (· == '0')
      | _ => true)

/-- `testCompatibilityMode`: an IE reporting version 7 with a Trident
token is compatibility mode; the real version is looked up from the
Trident version. -/
def testCompatibilityMode (a : AgentInfo) : AgentInfo :=
  if a.isIE then
    match tridentCapture a.source.data with
    | some tridentVersion =>
      if parseFloatIsSeven a.version && tridentVersion = 7 then
        { a with isIECompatibilityMode := true, version := "11.0" }
      else if parseFloatIsSeven a.version && tridentVersion = 6 then
        { a with isIECompatibilityMode := true, version := "10.0" }
      else if parseFloatIsSeven a.version && tridentVersion = 5 then
        { a with isIECompatibilityMode := true, version := "9.0" }
      else if parseFloatIsSeven a.version && tridentVersion = 4 then
        { a with isIECompatibilityMode := true, version := "8.0" }
      else a
    | none => a
  else a

/-- `testSilk`: `/silk/gi` and `/Silk-Accelerated=true/gi`. -/
def testSilk (a : AgentInfo) : AgentInfo :=
  let a := if containsCI a.source.data "silk" then { a with isSilk := true } else a
  if containsCI a.source.data "silk-accelerated=true" then { a with silkAccelerated := true } else a

/-- `testKindleFire`: any of the known Kindle Fire device codes. -/
def testKindleFire (a : AgentInfo) : AgentInfo :=
  if kindleCodes.any (fun code => containsCI a.source.data code) then
    { a with isKindleFire := true }
  else a

/-- `testCaptiveNetwork`: `/CaptiveNetwork/gi` forces the Mac platform. -/
def testCaptiveNetwork (a : AgentInfo) : AgentInfo :=
  if containsCI a.source.data "captivenetwork" then
    { a with isCaptive := true, isMac := true, platform := "Apple Mac" }
  else a

/-- `ua.agent.os = ...` (single-field updates named so that goals about
the `parse` pipeline stay small). -/
def withOS (a : AgentInfo) (v : String) : AgentInfo := { a with os := v }

/-- `ua.agent.platform = ...` -/
def withPlatform (a : AgentInfo) (v : String) : AgentInfo := { a with platform := v }

/-- `ua.agent.browser = ...` -/
def withBrowser (a : AgentInfo) (v : String) : AgentInfo := { a with browser := v }

/-- `ua.agent.version = ...` -/
def withVersion (a : AgentInfo) (v : String) : AgentInfo := { a with version := v }

/-- The five environment-reading steps at the end of `parse`
(`testTouchSupport`, `getLanguageInfo`, `getColorDepthInfo`,
`getPixelDepthInfo`, `getScreenResolutionInfo`, `getCPUInfo`), which set
six disjoint fields from the ambient environment; they are combined into
one record update. -/
def applyEnvInfo (env : Env) (a : AgentInfo) : AgentInfo :=
  { a with
      isTouchScreen := env.touchScreen
      language := env.language
      colorDepth := env.colorDepth
      pixelDepth := env.pixelDepth
      resolution := env.resolution
      cpuCores := env.cpuCores }

/-- `parse` from `src/core/DeviceUUID.ts`: a fresh default agent, the four
name steps, the derived tests in source order, then the environment
readings.  The receiver instance is never touched (the source does all
work on a freshly constructed inner instance).  The source passes
`ua.agent.source` to each name step; that field holds the trimmed
string `src` set just before and never modified, so `src` is passed
directly.  `parseAgent` is the four name steps, `runTests` the derived
tests, `applyEnvInfo` the environment readings. -/
def parseAgent (src : String) : AgentInfo :=
  let a := { DEFAULT_AGENT with source := src }
  let r1 := getOS a src
  let a := withOS r1.1 r1.2
  let r2 := getPlatform a src
  let a := withPlatform r2.1 r2.2
  let r3 := getBrowser a src
  let a := withBrowser r3.1 r3.2
  withVersion a (getBrowserVersion a src)

/-- The nine derived tests of `parse`, in source order. -/
def runTests (a : AgentInfo) : AgentInfo :=
  testCaptiveNetwork (testKindleFire (testSilk (testCompatibilityMode (testTablet
    (testAndroidTablet (testMobile (testSmartTV (testBot a))))))))

/-- The user-agent string `parse` works on: the explicit argument if
truthy, otherwise the environment's, trimmed. -/
def parseSource (env : Env) (source : Option String) : String :=
  let userAgent := match source with
    | some s => if s = "" then env.userAgent else s
    | none => env.userAgent
  ⟨trimWs userAgent.data⟩

def parse (env : Env) (source : Option String) : AgentInfo :=
  applyEnvInfo env (runTests (parseAgent (parseSource env source)))

def testEnv : Env where
  userAgent := ""
  language := "en-us"
  colorDepth := 24
  pixelDepth := 24
  resolution := (1920, 1080)
  cpuCores := 8
  touchScreen := false

/-! ## Options and `get` (`src/core/DeviceUUID.ts`) -/

/-- `DeviceUUIDOptions` from `src/types`: one boolean per agent field
that can enter the synchronous UUID. -/
structure DeviceUUIDOptions where
  version : Bool
  language : Bool
  platform : Bool
  os : Bool
  pixelDepth : Bool
  colorDepth : Bool
  resolution : Bool
  isAuthoritative : Bool
  silkAccelerated : Bool
  isKindleFire : Bool
  isDesktop : Bool
  isMobile : Bool
  isTablet : Bool
  isWindows : Bool
  isLinux : Bool
  isLinux64 : Bool
  isChromeOS : Bool
  isMac : Bool
  isiPad : Bool
  isiPhone : Bool
  isiPod : Bool
  isAndroid : Bool
  isSamsung : Bool
  isSmartTV : Bool
  isRaspberry : Bool
  isBlackberry : Bool
  isTouchScreen : Bool
  isOpera : Bool
  isIE : Bool
  isEdge : Bool
  isIECompatibilityMode : Bool
  isSafari : Bool
  isFirefox : Bool
  isWebkit : Bool
  isChrome : Bool
  isKonqueror : Bool
  isOmniWeb : Bool
  isSeaMonkey : Bool
  isFlock : Bool
  isAmaya : Bool
  isPhantomJS : Bool
  isEpiphany : Bool
  source : Bool
  cpuCores : Bool
deriving DecidableEq, Repr

/-- `DEFAULT_OPTIONS` (modelled from the v1 default option object, whose
keys and values the v2 `DeviceUUIDOptions` interface mirrors;
`src/constants` is absent). -/
def DEFAULT_OPTIONS : DeviceUUIDOptions where
  version := false
  language := false
  platform := true
  os := true
  pixelDepth := true
  colorDepth := true
  resolution := false
  isAuthoritative := true
  silkAccelerated := true
  isKindleFire := true
  isDesktop := true
  isMobile := true
  isTablet := true
  isWindows := true
  isLinux := true
  isLinux64 := true
  isChromeOS := true
  isMac := true
  isiPad := true
  isiPhone := true
  isiPod := true
  isAndroid := true
  isSamsung := true
  isSmartTV := true
  isRaspberry := true
  isBlackberry := true
  isTouchScreen := true
  isOpera := false
  isIE := false
  isEdge := false
  isIECompatibilityMode := false
  isSafari := false
  isFirefox := false
  isWebkit := false
  isChrome := false
  isKonqueror := false
  isOmniWeb := false
  isSeaMonkey := false
  isFlock := false
  isAmaya := false
  isPhantomJS := false
  isEpiphany := false
  source := false
  cpuCores := false

/-- A `DeviceUUID` instance: the options merged at construction and the
receiver's own agent slot (`this.options`, `this.agent`). -/
structure Inst where
  options : DeviceUUIDOptions
  agent : AgentInfo
deriving DecidableEq, Repr

/-- A fresh `new DeviceUUID()` with default options. -/
def newInst : Inst := { options := DEFAULT_OPTIONS, agent := DEFAULT_AGENT }

/-- JS stringification of a boolean, as seen by `join`. -/
def jsStringOfBool (b : Bool) : String := if b then "true" else "false"

/-- JS stringification of a number (the fields are integers). -/
def jsStringOfInt (n : Int) : String := toString n

/-- JS stringification of the `[w, h]` resolution array. -/
def jsStringOfRes (r : Int × Int) : String := toString r.1 ++ "," ++ toString r.2

/-- The `get` data collection: `for (const key in this.options) {
dataArray.push(du[key]) }` — every key of the (merged) options object, in
the fixed insertion order of `DEFAULT_OPTIONS`, contributes the
corresponding agent field value (v2 pushes the value for every key,
regardless of the option's boolean). -/
def optionKeyValues (du : AgentInfo) : List String :=
  [du.version, du.language, du.platform, du.os,
   jsStringOfInt du.pixelDepth, jsStringOfInt du.colorDepth,
   jsStringOfRes du.resolution,
   jsStringOfBool du.isAuthoritative, jsStringOfBool du.silkAccelerated,
   jsStringOfBool du.isKindleFire, jsStringOfBool du.isDesktop,
   jsStringOfBool du.isMobile, jsStringOfBool du.isTablet,
   jsStringOfBool du.isWindows, jsStringOfBool du.isLinux,
   jsStringOfBool du.isLinux64, jsStringOfBool du.isChromeOS,
   jsStringOfBool du.isMac, jsStringOfBool du.isiPad,
   jsStringOfBool du.isiPhone, jsStringOfBool du.isiPod,
   jsStringOfBool du.isAndroid, jsStringOfBool du.isSamsung,
   du.isSmartTV.jsString,
   jsStringOfBool du.isRaspberry, jsStringOfBool du.isBlackberry,
   jsStringOfBool du.isTouchScreen, jsStringOfBool du.isOpera,
   jsStringOfBool du.isIE, jsStringOfBool du.isEdge,
   jsStringOfBool du.isIECompatibilityMode, jsStringOfBool du.isSafari,
   jsStringOfBool du.isFirefox, jsStringOfBool du.isWebkit,
   jsStringOfBool du.isChrome, jsStringOfBool du.isKonqueror,
   jsStringOfBool du.isOmniWeb, jsStringOfBool du.isSeaMonkey,
   jsStringOfBool du.isFlock, jsStringOfBool du.isAmaya,
   jsStringOfBool du.isPhantomJS, jsStringOfBool du.isEpiphany,
   du.source, jsStringOfInt du.cpuCores]

/-- The `dataArray` of `get` (customData only when truthy, i.e. nonempty;
the mobile-resolution extra entry comes after it). -/
def getDataArray (inst : Inst) (du : AgentInfo) (customData : String) : List String :=
  let dataArray := optionKeyValues du
  let dataArray := if customData ≠ "" then dataArray ++ [customData] else dataArray
  if !inst.options.resolution && du.isMobile then dataArray ++ [jsStringOfRes du.resolution]
  else dataArray

/-- The v4-shaped reassembly of a 32-hex-character digest used by both
`get` and `getDetailedAsync`: groups `8-4-4-4-12`, the third group led by
the literal `'4'`, the fourth by the variant prefix `'b'` (`pref`), and
digest characters 18–19 dropped. -/
def uuidJoin (tmpUuid : String) : String :=
  joinSep "-"
    [strSlice tmpUuid 0 8,
     strSlice tmpUuid 8 12,
     "4" ++ strSlice tmpUuid 12 15,
     "b" ++ strSlice tmpUuid 15 18,
     strSliceFrom tmpUuid 20]

/-- The digested payload of `get`: `dataArray.join(':')`. -/
def getPayload (inst : Inst) (env : Env) (customData : String) : String :=
  joinSep ":" (getDataArray inst (parse env none) customData)

/-- `get` from `src/core/DeviceUUID.ts`. -/
def get (inst : Inst) (env : Env) (customData : String) : String :=
  uuidJoin (hashMD5 (getPayload inst env customData))

/-- `parse` as an instance method: the source works entirely on a freshly
constructed inner instance, so the receiver comes back unchanged. -/
def parseInst (inst : Inst) (env : Env) (source : Option String) : AgentInfo × Inst :=
  (parse env source, inst)

/-! ## Fingerprint options (`src/utils/fingerprint.ts`)

`fonts` may be `boolean | string[]` in the source; a custom font list
only changes the argument handed to the external font collector (whose
output is a model parameter anyway), so it is modelled as the enabled
flag. -/

structure FingerprintOptions where
  canvas : Bool
  webgl : Bool
  audio : Bool
  fonts : Bool
  mediaDevices : Bool
  networkInfo : Bool
  timezone : Bool
  incognitoDetection : Bool
  timeout : Nat
  methodTimeout : Nat
deriving DecidableEq, Repr

/-- `DEFAULT_FINGERPRINT_OPTIONS`: everything disabled. -/
def DEFAULT_FINGERPRINT_OPTIONS : FingerprintOptions where
  canvas := false
  webgl := false
  audio := false
  fonts := false
  mediaDevices := false
  networkInfo := false
  timezone := false
  incognitoDetection := false
  timeout := 5000
  methodTimeout := 1000

inductive FingerprintPreset where
  | minimal
  | standard
  | comprehensive
deriving DecidableEq, Repr

/-- `FINGERPRINT_PRESETS`. -/
def FINGERPRINT_PRESETS : FingerprintPreset → FingerprintOptions
  | .minimal => DEFAULT_FINGERPRINT_OPTIONS
  | .standard =>
    { DEFAULT_FINGERPRINT_OPTIONS with canvas := true, webgl := true, timezone := true }
  | .comprehensive =>
    { canvas := true, webgl := true, audio := true, fonts := true,
      mediaDevices := true, networkInfo := true, timezone := true,
      incognitoDetection := true, timeout := 10000, methodTimeout := 2000 }

/-- `getPresetOptions`. -/
def getPresetOptions (preset : FingerprintPreset) : FingerprintOptions :=
  FINGERPRINT_PRESETS preset

/-- `Partial<FingerprintOptions>`: each key optionally present. -/
structure FingerprintOptionsPatch where
  canvas : Option Bool
  webgl : Option Bool
  audio : Option Bool
  fonts : Option Bool
  mediaDevices : Option Bool
  networkInfo : Option Bool
  timezone : Option Bool
  incognitoDetection : Option Bool
  timeout : Option Nat
  methodTimeout : Option Nat
deriving DecidableEq, Repr

/-- The empty patch (`{}`). -/
def emptyPatch : FingerprintOptionsPatch :=
  ⟨none, none, none, none, none, none, none, none, none, none⟩

/-- `mergeOptions`: shallow merge of the given keys over the defaults. -/
def mergeOptions (options : Option FingerprintOptionsPatch) : FingerprintOptions :=
  match options with
  | none => DEFAULT_FINGERPRINT_OPTIONS
  | some o =>
    { canvas := o.canvas.getD DEFAULT_FINGERPRINT_OPTIONS.canvas
      webgl := o.webgl.getD DEFAULT_FINGERPRINT_OPTIONS.webgl
      audio := o.audio.getD DEFAULT_FINGERPRINT_OPTIONS.audio
      fonts := o.fonts.getD DEFAULT_FINGERPRINT_OPTIONS.fonts
      mediaDevices := o.mediaDevices.getD DEFAULT_FINGERPRINT_OPTIONS.mediaDevices
      networkInfo := o.networkInfo.getD DEFAULT_FINGERPRINT_OPTIONS.networkInfo
      timezone := o.timezone.getD DEFAULT_FINGERPRINT_OPTIONS.timezone
      incognitoDetection :=
        o.incognitoDetection.getD DEFAULT_FINGERPRINT_OPTIONS.incognitoDetection
      timeout := o.timeout.getD DEFAULT_FINGERPRINT_OPTIONS.timeout
      methodTimeout := o.methodTimeout.getD DEFAULT_FINGERPRINT_OPTIONS.methodTimeout }

/-- The `options` argument of `getDetailedAsync`: a preset name string or
a (possibly absent) partial options object. -/
inductive FingerprintArg where
  | preset (p : FingerprintPreset)
  | opts (o : Option FingerprintOptionsPatch)
deriving DecidableEq, Repr

/-- `typeof options === 'string' ? getPresetOptions(options) :
mergeOptions(options)`. -/
def resolveOptions : FingerprintArg → FingerprintOptions
  | .preset p => getPresetOptions p
  | .opts o => mergeOptions o

/-- `combineHashes` from `src/utils/fingerprint.ts`: drop `null` and empty
entries, join with the separator. -/
def combineHashes (hashes : List (Option String)) (separator : String) : String :=
  joinSep separator ((hashes.filterMap id).filter (fun x => x ≠ ""))

/-- `calculateConfidence` from `src/utils/fingerprint.ts` (the optional
`weights` argument is never passed by `getDetailedAsync` and is omitted). -/
def calculateConfidence (totalComponents successfulComponents : Nat) : Rat :=
  if totalComponents = 0 then 0
  else (successfulComponents : Rat) / (totalComponents : Rat)

/-! ## The async orchestrator (`getDetailedAsync`)

The event-loop behaviour is made explicit through an `AsyncEnv`: the
outcome of each external collector call and the order in which the
settling tasks' continuations run (which is the order of the
`hashes.push` calls in the source — each task body pushes its result
when its collector resolves, so hashes accumulate in completion order,
with only the synchronous `basic` hash guaranteed a fixed position).

* `TaskOutcome.settles v` — the collector resolved `v` (possibly `null`)
  before the global `withTimeout` deadline;
* `TaskOutcome.rejects`  — it rejected before the deadline, in which case
  `Promise.race([Promise.all(tasks), timer])` rejects and the whole
  `getDetailedAsync` promise rejects (modelled as `Except.error`);
* `TaskOutcome.pending`  — it had not settled when the global timer
  fired: its component slot is never written and its hash never pushed
  (a rejection after the deadline behaves the same for the caller and is
  also modelled as `pending`).

`networkInfo` and `timezone` are not scheduled as tasks at all: the
source awaits them inline; their helpers catch internally and always
settle. -/

inductive Sig where
  | canvas
  | webgl
  | audio
  | fonts
  | mediaDevices
  | networkInfo
  | timezone
  | incognito
deriving DecidableEq, Repr

/-- The fixed enumeration order of the optional signals (the order the
spec prescribes for combining, and the order of the code blocks in
`getDetailedAsync`). -/
def allSigs : List Sig :=
  [.canvas, .webgl, .audio, .fonts, .mediaDevices, .networkInfo, .timezone, .incognito]

/-- The signals that `getDetailedAsync` schedules as independent async
tasks (`tasks.push(...)`); `networkInfo` and `timezone` are awaited
inline instead. -/
def taskSigs : List Sig :=
  [.canvas, .webgl, .audio, .fonts, .mediaDevices, .incognito]

def signalName : Sig → String
  | .canvas => "canvas"
  | .webgl => "webgl"
  | .audio => "audio"
  | .fonts => "fonts"
  | .mediaDevices => "mediaDevices"
  | .networkInfo => "networkInfo"
  | .timezone => "timezone"
  | .incognito => "incognito"

/-- Which option key enables which signal. -/
def FingerprintOptions.enabled (o : FingerprintOptions) : Sig → Bool
  | .canvas => o.canvas
  | .webgl => o.webgl
  | .audio => o.audio
  | .fonts => o.fonts
  | .mediaDevices => o.mediaDevices
  | .networkInfo => o.networkInfo
  | .timezone => o.timezone
  | .incognito => o.incognitoDetection

inductive TaskOutcome where
  | settles (v : Option String)
  | rejects
  | pending
deriving DecidableEq, Repr

/-- One run of the event loop: collector outcomes, the completion order
of the settled tasks (the order their `hashes.push` calls run), and the
wall-clock readings that feed the reported (non-digested) metadata. -/
structure AsyncEnv where
  canvas : TaskOutcome
  webgl : TaskOutcome
  audio : TaskOutcome
  fonts : TaskOutcome
  mediaDevices : TaskOutcome
  incognito : TaskOutcome
  networkInfo : Option String
  timezone : Option String
  schedule : List Sig
  durations : Sig → Nat
  startTime : Nat
  endTime : Nat
  nowMs : Nat

/-- The outcome of each signal's collector call in this run. -/
def AsyncEnv.outcome (aenv : AsyncEnv) : Sig → TaskOutcome
  | .canvas => aenv.canvas
  | .webgl => aenv.webgl
  | .audio => aenv.audio
  | .fonts => aenv.fonts
  | .mediaDevices => aenv.mediaDevices
  | .networkInfo => .settles aenv.networkInfo
  | .timezone => .settles aenv.timezone
  | .incognito => aenv.incognito

/-- The hash a signal pushes onto the shared `hashes` array, if any: the
signal must be enabled, its collector must settle with a truthy (non-null,
nonempty) result (`if (result) { hashes.push(result); ... }`). -/
def pushedValue (o : FingerprintOptions) (aenv : AsyncEnv) (sig : Sig) : Option String :=
  if o.enabled sig then
    match aenv.outcome sig with
    | .settles (some v) => if v = "" then none else some v
    | _ => none
  else none

/-- Did some scheduled task reject before the global deadline?  If so,
`Promise.all(tasks)` rejects and the rejection wins the
`withTimeout` race, so `getDetailedAsync` itself rejects. -/
def hasRejection (o : FingerprintOptions) (aenv : AsyncEnv) : Bool :=
  taskSigs.any (fun sig =>
    o.enabled sig &&
      (match aenv.outcome sig with
        | .rejects => true
        | _ => false))

structure FingerprintComponent where
  name : String
  value : Option String
  success : Bool
  duration : Option Nat
deriving DecidableEq, Repr

structure FingerprintDetails where
  uuid : String
  basic : FingerprintComponent
  components : Sig → Option FingerprintComponent
  confidence : Rat
  duration : Nat
  timestamp : Nat

/-- The component slot a signal writes: settled collectors record
`{value, success: value !== null, duration}`; a signal still pending at
the global timeout has written nothing when the result object is built;
disabled signals are never attempted. -/
def componentOf (o : FingerprintOptions) (aenv : AsyncEnv) (sig : Sig) :
    Option FingerprintComponent :=
  if o.enabled sig then
    match aenv.outcome sig with
    | .settles v =>
      some { name := signalName sig, value := v, success := v.isSome,
             duration := some (aenv.durations sig) }
    | _ => none
  else none

/-- The value `combineHashes(hashes)` is applied to: the basic hash
first (pushed synchronously before any task runs), then the successful
hashes in the completion order of this run. -/
def combinedData (inst : Inst) (env : Env) (aenv : AsyncEnv) (options : FingerprintArg) :
    String :=
  let o := resolveOptions options
  let basicHash := get inst env ""
  let hashes : List (Option String) :=
    some basicHash :: (aenv.schedule.filterMap (pushedValue o aenv)).map some
  combineHashes hashes ":"

/-- `getDetailedAsync` from `src/core/DeviceUUID.ts`, as a function of
the instance, the ambient environment and one event-loop run. -/
def getDetailedAsync (inst : Inst) (env : Env) (aenv : AsyncEnv) (options : FingerprintArg) :
    Except Unit FingerprintDetails :=
  let o := resolveOptions options
  let basicHash := get inst env ""
  if hasRejection o aenv then .error ()
  else
    let totalCount := 1 + (allSigs.filter (fun sig => o.enabled sig)).length
    let successCount := 1 + (allSigs.filter (fun sig => (pushedValue o aenv sig).isSome)).length
    let finalHash := hashMD5 (combinedData inst env aenv options)
    .ok
      { uuid := uuidJoin finalHash
        basic := { name := "basic", value := some basicHash, success := true, duration := none }
        components := componentOf o aenv
        confidence := calculateConfidence totalCount successCount
        duration := aenv.endTime - aenv.startTime
        timestamp := aenv.nowMs }

/-- `getAsync`: `(await this.getDetailedAsync(options)).uuid`. -/
def getAsync (inst : Inst) (env : Env) (aenv : AsyncEnv) (options : FingerprintArg) :
    Except Unit String :=
  (getDetailedAsync inst env aenv options).map (fun details => details.uuid)

/-! ## Theorems

First the digest/UUID shape machinery used by several claims. -/

/-- Lowercase hexadecimal digit character. -/
def isHexChar (c : Char) : Bool := isDigitCh c || ('a' ≤ c && c ≤ 'f')

/-- The UUID-v4 shape of the spec:
`/^[0-9a-f]{8}-[0-9a-f]{4}-4[0-9a-f]{3}-[89ab][0-9a-f]{3}-[0-9a-f]{12}$/i`
(all digests here are lowercase, so the lowercase reading decides the
case-insensitive regex). -/
def isUuidV4Shape (s : String) : Bool :=
  let l := s.data
  l.length == 36 &&
  (l.take 8).all isHexChar &&
  ((l.drop 8).take 1 == ['-']) &&
  ((l.drop 9).take 4).all isHexChar &&
  ((l.drop 13).take 1 == ['-']) &&
  ((l.drop 14).take 1 == ['4']) &&
  ((l.drop 15).take 3).all isHexChar &&
  ((l.drop 18).take 1 == ['-']) &&
  (match (l.drop 19).take 1 with
    | [c] => c == '8' || c == '9' || c == 'a' || c == 'b'
    | _ => false) &&
  ((l.drop 20).take 3).all isHexChar &&
  ((l.drop 23).take 1 == ['-']) &&
  ((l.drop 24).take 12).all isHexChar

lemma hexDigit_isHex : ∀ n < 16, isHexChar (hexDigit n) = true := by decide

lemma wordToHex_length (v : Nat) : (wordToHex v).length = 8 := rfl

lemma wordToHex_hex (v : Nat) : (wordToHex v).all isHexChar = true := by
  have hr : List.range 4 = [0, 1, 2, 3] := rfl
  simp only [wordToHex, hr, List.map, List.flatten, List.all_cons, List.all_nil,
    List.append_nil, List.all_append, Bool.and_true, Bool.and_eq_true]
  refine ⟨⟨?_, ?_⟩, ⟨?_, ?_⟩, ⟨?_, ?_⟩, ?_, ?_⟩ <;> exact hexDigit_isHex _ (by omega)

lemma hashMD5Units_length (units : List Nat) : (hashMD5Units units).length = 32 := by
  simp [hashMD5Units, wordToHex_length]

lemma hashMD5Units_hex (units : List Nat) : (hashMD5Units units).all isHexChar = true := by
  simp [hashMD5Units, List.all_append, wordToHex_hex]

lemma hashMD5_data (s : String) : (hashMD5 s).data = hashMD5Units (toCodeUnits s) := rfl

/-- Any 32-character lowercase-hex digest reassembled by `uuidJoin` has
the UUID-v4 shape. -/
lemma uuidJoin_shape (l : List Char) (hlen : l.length = 32)
    (hall : l.all isHexChar = true) : isUuidV4Shape (uuidJoin ⟨l⟩) = true := by
  rcases l with _ | ⟨c0, l⟩
  · simp at hlen
  rcases l with _ | ⟨c1, l⟩
  · simp at hlen
  rcases l with _ | ⟨c2, l⟩
  · simp at hlen
  rcases l with _ | ⟨c3, l⟩
  · simp at hlen
  rcases l with _ | ⟨c4, l⟩
  · simp at hlen
  rcases l with _ | ⟨c5, l⟩
  · simp at hlen
  rcases l with _ | ⟨c6, l⟩
  · simp at hlen
  rcases l with _ | ⟨c7, l⟩
  · simp at hlen
  rcases l with _ | ⟨c8, l⟩
  · simp at hlen
  rcases l with _ | ⟨c9, l⟩
  · simp at hlen
  rcases l with _ | ⟨c10, l⟩
  · simp at hlen
  rcases l with _ | ⟨c11, l⟩
  · simp at hlen
  rcases l with _ | ⟨c12, l⟩
  · simp at hlen
  rcases l with _ | ⟨c13, l⟩
  · simp at hlen
  rcases l with _ | ⟨c14, l⟩
  · simp at hlen
  rcases l with _ | ⟨c15, l⟩
  · simp at hlen
  rcases l with _ | ⟨c16, l⟩
  · simp at hlen
  rcases l with _ | ⟨c17, l⟩
  · simp at hlen
  rcases l with _ | ⟨c18, l⟩
  · simp at hlen
  rcases l with _ | ⟨c19, l⟩
  · simp at hlen
  rcases l with _ | ⟨c20, l⟩
  · simp at hlen
  rcases l with _ | ⟨c21, l⟩
  · simp at hlen
  rcases l with _ | ⟨c22, l⟩
  · simp at hlen
  rcases l with _ | ⟨c23, l⟩
  · simp at hlen
  rcases l with _ | ⟨c24, l⟩
  · simp at hlen
  rcases l with _ | ⟨c25, l⟩
  · simp at hlen
  rcases l with _ | ⟨c26, l⟩
  · simp at hlen
  rcases l with _ | ⟨c27, l⟩
  · simp at hlen
  rcases l with _ | ⟨c28, l⟩
  · simp at hlen
  rcases l with _ | ⟨c29, l⟩
  · simp at hlen
  rcases l with _ | ⟨c30, l⟩
  · simp at hlen
  rcases l with _ | ⟨c31, l⟩
  · simp at hlen
  rcases l with _ | ⟨c32, l⟩
  case cons => simp at hlen
  simp only [List.all_cons, List.all_nil, Bool.and_eq_true, Bool.and_true] at hall
  obtain ⟨h0, h1, h2, h3, h4, h5, h6, h7, h8, h9, h10, h11, h12, h13, h14, h15,
    h16, h17, h18, h19, h20, h21, h22, h23, h24, h25, h26, h27, h28, h29, h30, h31⟩ := hall
  simp [isUuidV4Shape, uuidJoin, joinSep, strSlice, strSliceFrom,
    String.append, List.take, List.drop, List.all, h0, h1, h2, h3, h4, h5, h6, h7,
    h8, h9, h10, h11, h12, h13, h14, h15, h16, h17, h20, h21, h22, h23, h24, h25,
    h26, h27, h28, h29, h30, h31]

/-- The shape of `hashMD5` output, at the string level. -/
lemma hashMD5_shape (s : String) :
    (hashMD5 s).data.length = 32 ∧ (hashMD5 s).data.all isHexChar = true := by
  rw [hashMD5_data]
  exact ⟨hashMD5Units_length _, hashMD5Units_hex _⟩

/-- `uuidJoin` applied to any `hashMD5` digest is v4-shaped. -/
lemma uuidJoin_hashMD5_shape (s : String) :
    isUuidV4Shape (uuidJoin (hashMD5 s)) = true := by
  obtain ⟨hl, hh⟩ := hashMD5_shape s
  have : hashMD5 s = (⟨(hashMD5 s).data⟩ : String) := rfl
  rw [this]
  exact uuidJoin_shape _ hl hh

/-- Shape of the uuid of an orchestrator result (vacuously true for a
rejected run, which produced no uuid). -/
def resultShapeOk : Except Unit FingerprintDetails → Bool
  | .ok r => isUuidV4Shape r.uuid
  | .error _ => true

/-- Unfolding lemma: a run without rejection resolves to the fully
described result object. -/
lemma getDetailedAsync_eq_ok
    (inst : Inst) (env : Env) (aenv : AsyncEnv) (options : FingerprintArg)
    (hnr : hasRejection (resolveOptions options) aenv = false) :
    getDetailedAsync inst env aenv options =
      .ok
        { uuid := uuidJoin (hashMD5 (combinedData inst env aenv options))
          basic := { name := "basic", value := some (get inst env ""), success := true,
                     duration := none }
          components := componentOf (resolveOptions options) aenv
          confidence :=
            calculateConfidence
              (1 + (allSigs.filter (fun sig => (resolveOptions options).enabled sig)).length)
              (1 + (allSigs.filter (fun sig =>
                (pushedValue (resolveOptions options) aenv sig).isSome)).length)
          duration := aenv.endTime - aenv.startTime
          timestamp := aenv.nowMs } := by
  simp only [getDetailedAsync, hnr, Bool.false_eq_true, if_false]

/-- Unfolding lemma: a run with a rejecting task rejects. -/
lemma getDetailedAsync_eq_error
    (inst : Inst) (env : Env) (aenv : AsyncEnv) (options : FingerprintArg)
    (hr : hasRejection (resolveOptions options) aenv = true) :
    getDetailedAsync inst env aenv options = .error () := by
  simp only [getDetailedAsync, hr, if_true]

/-- C8: Every uuid produced by `get()`, `getAsync()` and
`getDetailedAsync()` is a 36-character string matching
`/^[0-9a-f]{8}-[0-9a-f]{4}-4[0-9a-f]{3}-[89ab][0-9a-f]{3}-[0-9a-f]{12}$/i`:
five hex groups of lengths 8-4-4-4-12, the third group led by the
literal `4` and the fourth by one of `8, 9, a, b` (here always `b`, the
constant variant prefix of the source). -/
theorem claim_C8_uuid_v4_shape :
    ∀ (inst : Inst) (env : Env) (customData : String) (aenv : AsyncEnv)
      (options : FingerprintArg),
      isUuidV4Shape (get inst env customData) = true ∧
      resultShapeOk (getDetailedAsync inst env aenv options) = true ∧
      (match getAsync inst env aenv options with
        | .ok u => isUuidV4Shape u
        | .error _ => true) = true := by
  intro inst env customData aenv options
  refine ⟨uuidJoin_hashMD5_shape _, ?_, ?_⟩
  · rcases hr : hasRejection (resolveOptions options) aenv with _ | _
    · rw [getDetailedAsync_eq_ok inst env aenv options hr]
      exact uuidJoin_hashMD5_shape _
    · rw [getDetailedAsync_eq_error inst env aenv options hr]
      rfl
  · unfold getAsync
    rcases hr : hasRejection (resolveOptions options) aenv with _ | _
    · rw [getDetailedAsync_eq_ok inst env aenv options hr]
      exact uuidJoin_hashMD5_shape _
    · rw [getDetailedAsync_eq_error inst env aenv options hr]
      rfl

/-- C10: `parse()` works entirely on a freshly constructed inner
instance: the receiver (its agent state and options) comes back
unchanged, the parse result does not depend on the receiver at all, and
`get`/`getDetailedAsync` (which call `parse`) read only the receiver's
options, never its agent slot. -/
theorem claim_C10_parse_frame :
    ∀ (inst other : Inst) (env : Env) (source : Option String) (customData : String)
      (aenv : AsyncEnv) (options : FingerprintArg),
      (parseInst inst env source).2 = inst ∧
      (parseInst inst env source).1 = (parseInst other env source).1 ∧
      get { options := inst.options, agent := other.agent } env customData =
        get inst env customData ∧
      getDetailedAsync { options := inst.options, agent := other.agent } env aenv options =
        getDetailedAsync inst env aenv options := by
  intro inst other env source customData aenv options
  exact ⟨rfl, rfl, rfl, rfl⟩

/-- C2 (amended): as long as no scheduled collector rejects before the
global deadline, `getDetailedAsync` resolves: collectors that settle
with `null` (unavailability, internal failure, per-method timeout) or
that are still pending at the global timeout degrade only themselves,
the `basic` component always succeeds and holds the synchronous hash,
and a well-formed v4-shaped uuid is produced. -/
theorem claim_C2_amended_no_rejection_resolves
    (inst : Inst) (env : Env) (aenv : AsyncEnv) (options : FingerprintArg)
    (hnr : hasRejection (resolveOptions options) aenv = false) :
    ∃ r, getDetailedAsync inst env aenv options = .ok r ∧
      r.basic.success = true ∧ r.basic.value = some (get inst env "") ∧
      isUuidV4Shape r.uuid = true := by
  rw [getDetailedAsync_eq_ok inst env aenv options hnr]
  exact ⟨_, rfl, rfl, rfl, uuidJoin_hashMD5_shape _⟩

/-! Concrete run configurations used by the counterexamples below. -/

def zeroDur : Sig → Nat := fun _ => 0

/-- A run in which every collector immediately resolves `null` (the
Node.js behaviour of the repository's own test-suite). -/
def aenvBase : AsyncEnv where
  canvas := .settles none
  webgl := .settles none
  audio := .settles none
  fonts := .settles none
  mediaDevices := .settles none
  incognito := .settles none
  networkInfo := none
  timezone := none
  schedule := []
  durations := zeroDur
  startTime := 0
  endTime := 0
  nowMs := 0

/-- Canvas and webgl requested (`{ canvas: true, webgl: true }`). -/
def patchCanvasWebgl : FingerprintOptionsPatch :=
  { emptyPatch with canvas := some true, webgl := some true }

/-- Canvas requested alone (`{ canvas: true }`). -/
def patchCanvas : FingerprintOptionsPatch :=
  { emptyPatch with canvas := some true }

/-- Canvas and webgl succeed; the webgl task happens to complete first. -/
def aenvWebglFirst : AsyncEnv :=
  { aenvBase with
      canvas := .settles (some "aaaa")
      webgl := .settles (some "bbbb")
      schedule := [.webgl, .canvas] }

/-- Same collector outputs, but canvas completes first. -/
def aenvCanvasFirst : AsyncEnv :=
  { aenvWebglFirst with schedule := [.canvas, .webgl] }

/-- A run where the canvas collector rejects. -/
def aenvCanvasRejects : AsyncEnv :=
  { aenvBase with canvas := .rejects }

/-- A run where the canvas collector never settles before the global
timeout. -/
def aenvCanvasPending : AsyncEnv :=
  { aenvBase with canvas := .pending }

/-- C2 (counterexample to the claim as stated): a collector that rejects
is *not* contained — `measureAsync` does not catch, the task promise
rejects, `Promise.all(tasks)` rejects, the rejection wins the
`withTimeout` race, and `getDetailedAsync` itself rejects; no uuid is
produced for the caller. -/
theorem claim_C2_counterexample_rejection_propagates :
    getDetailedAsync newInst testEnv aenvCanvasRejects (.opts (some patchCanvas)) =
      .error () :=
  getDetailedAsync_eq_error newInst testEnv aenvCanvasRejects (.opts (some patchCanvas))
    (by decide)

/-- C2 witness: a concrete run (canvas enabled, collector resolves
`null`) where the amended theorem applies: the call resolves, basic
succeeds, the uuid is v4-shaped. -/
theorem claim_C2_amended_witness :
    ∃ r, getDetailedAsync newInst testEnv aenvBase (.opts (some patchCanvas)) = .ok r ∧
      r.basic.success = true ∧ r.basic.value = some (get newInst testEnv "") ∧
      isUuidV4Shape r.uuid = true :=
  claim_C2_amended_no_rejection_resolves newInst testEnv aenvBase (.opts (some patchCanvas))
    (by decide)

/-- C7 (amended): each of the canvas/webgl/audio/fonts/mediaDevices/
incognito signals enabled in the resolved options is scheduled as an
independent task whose collector receives `methodTimeout`
(`networkInfo` and `timezone` are instead awaited inline); a signal
whose collector settles with `null` — the degradation path for
unavailability, internal errors and per-collector timeouts — is
recorded as `{success: false, value: null}` and, absent any rejection,
the run still resolves; a signal still pending at the global timeout is
omitted from the components instead, and a rejecting collector aborts
the whole call. -/
theorem claim_C7_amended_null_recorded
    (inst : Inst) (env : Env) (aenv : AsyncEnv) (options : FingerprintArg) (sig : Sig)
    (hen : (resolveOptions options).enabled sig = true)
    (hout : aenv.outcome sig = .settles none)
    (hnr : hasRejection (resolveOptions options) aenv = false) :
    ∃ r, getDetailedAsync inst env aenv options = .ok r ∧
      r.components sig =
        some { name := signalName sig, value := none, success := false,
               duration := some (aenv.durations sig) } := by
  rw [getDetailedAsync_eq_ok inst env aenv options hnr]
  refine ⟨_, rfl, ?_⟩
  simp [componentOf, hen, hout]

/-- C7 witness: canvas enabled, its collector resolves `null`, no
rejection: the `canvas` component is recorded `{success: false,
value: null}`. -/
theorem claim_C7_amended_witness :
    ∃ r, getDetailedAsync newInst testEnv aenvBase (.opts (some patchCanvas)) = .ok r ∧
      r.components .canvas =
        some { name := signalName .canvas, value := none, success := false,
               duration := some (aenvBase.durations .canvas) } :=
  claim_C7_amended_null_recorded newInst testEnv aenvBase (.opts (some patchCanvas)) .canvas
    (by decide) (by decide) (by decide)

/-- C7 (counterexample to the claim as stated): a signal that exceeds
the global deadline is *not* recorded as `{success: false, value:
null}` — its component slot is simply missing from the result. -/
theorem claim_C7_counterexample_pending_omitted :
    (getDetailedAsync newInst testEnv aenvCanvasPending (.opts (some patchCanvas))).map
      (fun r => r.components .canvas) = .ok none := by
  rw [getDetailedAsync_eq_ok newInst testEnv aenvCanvasPending (.opts (some patchCanvas))
    (by decide)]
  rfl

/-- C1 (evaluation at the failing input): with canvas and webgl enabled
and both succeeding, a run in which the webgl task completes first
digests `basic:webglHash:canvasHash` — completion order, not the fixed
enumeration order `basic:canvasHash:webglHash` that the spec (and the
repository's own determinism test) require. -/
theorem claim_C1_codebug_completion_order :
    combinedData newInst testEnv aenvWebglFirst (.opts (some patchCanvasWebgl)) =
      get newInst testEnv "" ++ ":bbbb:aaaa" ∧
    combinedData newInst testEnv aenvWebglFirst (.opts (some patchCanvasWebgl)) ≠
      combineHashes [some (get newInst testEnv ""), some "aaaa", some "bbbb"] ":" := by
  constructor
  · decide
  · decide

/-- The uuid of a resolved `getAsync` call, `none` for a rejected one. -/
def exceptUuid : Except Unit String → Option String
  | .ok u => some u
  | .error _ => none

/-- C4 (evaluation at the failing input): identical user agent, options,
environment readings and collector outputs, but the two tasks complete
in opposite orders across the two calls — the two `getAsync` uuids
differ, because the digested payload incorporates completion order. -/
theorem claim_C4_codebug_schedule_sensitivity :
    exceptUuid (getAsync newInst testEnv aenvCanvasFirst (.opts (some patchCanvasWebgl))) ≠
      exceptUuid (getAsync newInst testEnv aenvWebglFirst (.opts (some patchCanvasWebgl))) := by
  decide


/-! ### Frame lemmas for the classifier pipeline

Each step of `parse` touches only its own flags; the following lemmas
record the fields it leaves alone (used by the invariant proofs). -/

@[simp] lemma testBot_isMobile (a : AgentInfo) : (testBot a).isMobile = a.isMobile := by
  simp only [testBot]; (repeat' split) <;> rfl

@[simp] lemma testBot_isDesktop (a : AgentInfo) : (testBot a).isDesktop = a.isDesktop := by
  simp only [testBot]; (repeat' split) <;> rfl

@[simp] lemma testBot_isSmartTV (a : AgentInfo) : (testBot a).isSmartTV = a.isSmartTV := by
  simp only [testBot]; (repeat' split) <;> rfl

@[simp] lemma testBot_isMac (a : AgentInfo) : (testBot a).isMac = a.isMac := by
  simp only [testBot]; (repeat' split) <;> rfl

@[simp] lemma testBot_isTablet (a : AgentInfo) : (testBot a).isTablet = a.isTablet := by
  simp only [testBot]; (repeat' split) <;> rfl

@[simp] lemma testBot_os (a : AgentInfo) : (testBot a).os = a.os := by
  simp only [testBot]; (repeat' split) <;> rfl

@[simp] lemma testBot_source (a : AgentInfo) : (testBot a).source = a.source := by
  simp only [testBot]; (repeat' split) <;> rfl

@[simp] lemma testSmartTV_isMobile (a : AgentInfo) : (testSmartTV a).isMobile = a.isMobile := by
  simp only [testSmartTV]; (repeat' split) <;> rfl

@[simp] lemma testSmartTV_isDesktop (a : AgentInfo) : (testSmartTV a).isDesktop = a.isDesktop := by
  simp only [testSmartTV]; (repeat' split) <;> rfl

@[simp] lemma testSmartTV_isMac (a : AgentInfo) : (testSmartTV a).isMac = a.isMac := by
  simp only [testSmartTV]; (repeat' split) <;> rfl

@[simp] lemma testSmartTV_isTablet (a : AgentInfo) : (testSmartTV a).isTablet = a.isTablet := by
  simp only [testSmartTV]; (repeat' split) <;> rfl

@[simp] lemma testSmartTV_os (a : AgentInfo) : (testSmartTV a).os = a.os := by
  simp only [testSmartTV]; (repeat' split) <;> rfl

@[simp] lemma testSmartTV_source (a : AgentInfo) : (testSmartTV a).source = a.source := by
  simp only [testSmartTV]; (repeat' split) <;> rfl

@[simp] lemma testMobile_isSmartTV (a : AgentInfo) : (testMobile a).isSmartTV = a.isSmartTV := by
  simp only [testMobile]; (repeat' split) <;> rfl

@[simp] lemma testMobile_isMac (a : AgentInfo) : (testMobile a).isMac = a.isMac := by
  simp only [testMobile]; (repeat' split) <;> rfl

@[simp] lemma testMobile_isTablet (a : AgentInfo) : (testMobile a).isTablet = a.isTablet := by
  simp only [testMobile]; (repeat' split) <;> rfl

@[simp] lemma testMobile_os (a : AgentInfo) : (testMobile a).os = a.os := by
  simp only [testMobile]; (repeat' split) <;> rfl

@[simp] lemma testMobile_source (a : AgentInfo) : (testMobile a).source = a.source := by
  simp only [testMobile]; (repeat' split) <;> rfl

@[simp] lemma testAndroidTablet_isDesktop (a : AgentInfo) : (testAndroidTablet a).isDesktop = a.isDesktop := by
  simp only [testAndroidTablet]; (repeat' split) <;> rfl

@[simp] lemma testAndroidTablet_isSmartTV (a : AgentInfo) : (testAndroidTablet a).isSmartTV = a.isSmartTV := by
  simp only [testAndroidTablet]; (repeat' split) <;> rfl

@[simp] lemma testAndroidTablet_isMac (a : AgentInfo) : (testAndroidTablet a).isMac = a.isMac := by
  simp only [testAndroidTablet]; (repeat' split) <;> rfl

@[simp] lemma testAndroidTablet_os (a : AgentInfo) : (testAndroidTablet a).os = a.os := by
  simp only [testAndroidTablet]; (repeat' split) <;> rfl

@[simp] lemma testAndroidTablet_source (a : AgentInfo) : (testAndroidTablet a).source = a.source := by
  simp only [testAndroidTablet]; (repeat' split) <;> rfl

@[simp] lemma testTablet_isMobile (a : AgentInfo) : (testTablet a).isMobile = a.isMobile := by
  simp only [testTablet]; (repeat' split) <;> rfl

@[simp] lemma testTablet_isDesktop (a : AgentInfo) : (testTablet a).isDesktop = a.isDesktop := by
  simp only [testTablet]; (repeat' split) <;> rfl

@[simp] lemma testTablet_isSmartTV (a : AgentInfo) : (testTablet a).isSmartTV = a.isSmartTV := by
  simp only [testTablet]; (repeat' split) <;> rfl

@[simp] lemma testTablet_isMac (a : AgentInfo) : (testTablet a).isMac = a.isMac := by
  simp only [testTablet]; (repeat' split) <;> rfl

@[simp] lemma testTablet_os (a : AgentInfo) : (testTablet a).os = a.os := by
  simp only [testTablet]; (repeat' split) <;> rfl

@[simp] lemma testTablet_source (a : AgentInfo) : (testTablet a).source = a.source := by
  simp only [testTablet]; (repeat' split) <;> rfl

@[simp] lemma testCompatibilityMode_isMobile (a : AgentInfo) : (testCompatibilityMode a).isMobile = a.isMobile := by
  simp only [testCompatibilityMode]; (repeat' split) <;> rfl

@[simp] lemma testCompatibilityMode_isDesktop (a : AgentInfo) : (testCompatibilityMode a).isDesktop = a.isDesktop := by
  simp only [testCompatibilityMode]; (repeat' split) <;> rfl

@[simp] lemma testCompatibilityMode_isSmartTV (a : AgentInfo) : (testCompatibilityMode a).isSmartTV = a.isSmartTV := by
  simp only [testCompatibilityMode]; (repeat' split) <;> rfl

@[simp] lemma testCompatibilityMode_isMac (a : AgentInfo) : (testCompatibilityMode a).isMac = a.isMac := by
  simp only [testCompatibilityMode]; (repeat' split) <;> rfl

@[simp] lemma testCompatibilityMode_isTablet (a : AgentInfo) : (testCompatibilityMode a).isTablet = a.isTablet := by
  simp only [testCompatibilityMode]; (repeat' split) <;> rfl

@[simp] lemma testCompatibilityMode_os (a : AgentInfo) : (testCompatibilityMode a).os = a.os := by
  simp only [testCompatibilityMode]; (repeat' split) <;> rfl

@[simp] lemma testCompatibilityMode_source (a : AgentInfo) : (testCompatibilityMode a).source = a.source := by
  simp only [testCompatibilityMode]; (repeat' split) <;> rfl

@[simp] lemma testSilk_isMobile (a : AgentInfo) : (testSilk a).isMobile = a.isMobile := by
  simp only [testSilk]; (repeat' split) <;> rfl

@[simp] lemma testSilk_isDesktop (a : AgentInfo) : (testSilk a).isDesktop = a.isDesktop := by
  simp only [testSilk]; (repeat' split) <;> rfl

@[simp] lemma testSilk_isSmartTV (a : AgentInfo) : (testSilk a).isSmartTV = a.isSmartTV := by
  simp only [testSilk]; (repeat' split) <;> rfl

@[simp] lemma testSilk_isMac (a : AgentInfo) : (testSilk a).isMac = a.isMac := by
  simp only [testSilk]; (repeat' split) <;> rfl

@[simp] lemma testSilk_isTablet (a : AgentInfo) : (testSilk a).isTablet = a.isTablet := by
  simp only [testSilk]; (repeat' split) <;> rfl

@[simp] lemma testSilk_os (a : AgentInfo) : (testSilk a).os = a.os := by
  simp only [testSilk]; (repeat' split) <;> rfl

@[simp] lemma testSilk_source (a : AgentInfo) : (testSilk a).source = a.source := by
  simp only [testSilk]; (repeat' split) <;> rfl

@[simp] lemma testKindleFire_isMobile (a : AgentInfo) : (testKindleFire a).isMobile = a.isMobile := by
  simp only [testKindleFire]; (repeat' split) <;> rfl

@[simp] lemma testKindleFire_isDesktop (a : AgentInfo) : (testKindleFire a).isDesktop = a.isDesktop := by
  simp only [testKindleFire]; (repeat' split) <;> rfl

@[simp] lemma testKindleFire_isSmartTV (a : AgentInfo) : (testKindleFire a).isSmartTV = a.isSmartTV := by
  simp only [testKindleFire]; (repeat' split) <;> rfl

@[simp] lemma testKindleFire_isMac (a : AgentInfo) : (testKindleFire a).isMac = a.isMac := by
  simp only [testKindleFire]; (repeat' split) <;> rfl

@[simp] lemma testKindleFire_isTablet (a : AgentInfo) : (testKindleFire a).isTablet = a.isTablet := by
  simp only [testKindleFire]; (repeat' split) <;> rfl

@[simp] lemma testKindleFire_os (a : AgentInfo) : (testKindleFire a).os = a.os := by
  simp only [testKindleFire]; (repeat' split) <;> rfl

@[simp] lemma testKindleFire_source (a : AgentInfo) : (testKindleFire a).source = a.source := by
  simp only [testKindleFire]; (repeat' split) <;> rfl

@[simp] lemma testCaptiveNetwork_isMobile (a : AgentInfo) : (testCaptiveNetwork a).isMobile = a.isMobile := by
  simp only [testCaptiveNetwork]; (repeat' split) <;> rfl

@[simp] lemma testCaptiveNetwork_isDesktop (a : AgentInfo) : (testCaptiveNetwork a).isDesktop = a.isDesktop := by
  simp only [testCaptiveNetwork]; (repeat' split) <;> rfl

@[simp] lemma testCaptiveNetwork_isSmartTV (a : AgentInfo) : (testCaptiveNetwork a).isSmartTV = a.isSmartTV := by
  simp only [testCaptiveNetwork]; (repeat' split) <;> rfl

@[simp] lemma testCaptiveNetwork_isTablet (a : AgentInfo) : (testCaptiveNetwork a).isTablet = a.isTablet := by
  simp only [testCaptiveNetwork]; (repeat' split) <;> rfl

@[simp] lemma testCaptiveNetwork_os (a : AgentInfo) : (testCaptiveNetwork a).os = a.os := by
  simp only [testCaptiveNetwork]; (repeat' split) <;> rfl

@[simp] lemma testCaptiveNetwork_source (a : AgentInfo) : (testCaptiveNetwork a).source = a.source := by
  simp only [testCaptiveNetwork]; (repeat' split) <;> rfl

/-- Generic frame step for an if-chain over `AgentInfo × String` pairs. -/
lemma ite_fst_pres {α : Type} (f : AgentInfo → α) (v : α) (c : Bool) (x y : AgentInfo × String)
    (hx : f x.1 = v) (hy : f y.1 = v) : f ((if c = true then x else y).1) = v := by
  cases c <;> simpa

/-- Generic frame step conditional on the returned name. -/
lemma ite_snd_pres {α : Type} (f : AgentInfo → α) (v : α) (w : String) (c : Bool)
    (x y : AgentInfo × String) (hx : x.2 = w → f x.1 = v) (hy : y.2 = w → f y.1 = v) :
    (if c = true then x else y).2 = w → f ((if c = true then x else y).1) = v := by
  cases c <;> simpa

@[simp] lemma getOS_isMobile (a : AgentInfo) (s : String) : ((getOS a s).1).isMobile = a.isMobile := by
  unfold getOS; lift_lets; intros; (repeat' apply ite_fst_pres) <;> first | rfl | (split <;> rfl)

@[simp] lemma getOS_isDesktop (a : AgentInfo) (s : String) : ((getOS a s).1).isDesktop = a.isDesktop := by
  unfold getOS; lift_lets; intros; (repeat' apply ite_fst_pres) <;> first | rfl | (split <;> rfl)

@[simp] lemma getOS_isSmartTV (a : AgentInfo) (s : String) : ((getOS a s).1).isSmartTV = a.isSmartTV := by
  unfold getOS; lift_lets; intros; (repeat' apply ite_fst_pres) <;> first | rfl | (split <;> rfl)

@[simp] lemma getOS_isTablet (a : AgentInfo) (s : String) : ((getOS a s).1).isTablet = a.isTablet := by
  unfold getOS; lift_lets; intros; (repeat' apply ite_fst_pres) <;> first | rfl | (split <;> rfl)

@[simp] lemma getOS_source (a : AgentInfo) (s : String) : ((getOS a s).1).source = a.source := by
  unfold getOS; lift_lets; intros; (repeat' apply ite_fst_pres) <;> first | rfl | (split <;> rfl)

@[simp] lemma getPlatform_isMobile (a : AgentInfo) (s : String) : ((getPlatform a s).1).isMobile = a.isMobile := by
  unfold getPlatform; lift_lets; intros; (repeat' apply ite_fst_pres) <;> first | rfl | (split <;> rfl)

@[simp] lemma getPlatform_isDesktop (a : AgentInfo) (s : String) : ((getPlatform a s).1).isDesktop = a.isDesktop := by
  unfold getPlatform; lift_lets; intros; (repeat' apply ite_fst_pres) <;> first | rfl | (split <;> rfl)

@[simp] lemma getPlatform_isSmartTV (a : AgentInfo) (s : String) : ((getPlatform a s).1).isSmartTV = a.isSmartTV := by
  unfold getPlatform; lift_lets; intros; (repeat' apply ite_fst_pres) <;> first | rfl | (split <;> rfl)

@[simp] lemma getPlatform_isMac (a : AgentInfo) (s : String) : ((getPlatform a s).1).isMac = a.isMac := by
  unfold getPlatform; lift_lets; intros; (repeat' apply ite_fst_pres) <;> first | rfl | (split <;> rfl)

@[simp] lemma getPlatform_isTablet (a : AgentInfo) (s : String) : ((getPlatform a s).1).isTablet = a.isTablet := by
  unfold getPlatform; lift_lets; intros; (repeat' apply ite_fst_pres) <;> first | rfl | (split <;> rfl)

@[simp] lemma getPlatform_os (a : AgentInfo) (s : String) : ((getPlatform a s).1).os = a.os := by
  unfold getPlatform; lift_lets; intros; (repeat' apply ite_fst_pres) <;> first | rfl | (split <;> rfl)

@[simp] lemma getPlatform_source (a : AgentInfo) (s : String) : ((getPlatform a s).1).source = a.source := by
  unfold getPlatform; lift_lets; intros; (repeat' apply ite_fst_pres) <;> first | rfl | (split <;> rfl)

@[simp] lemma getBrowser_isMobile (a : AgentInfo) (s : String) : ((getBrowser a s).1).isMobile = a.isMobile := by
  unfold getBrowser; lift_lets; intros; (repeat' apply ite_fst_pres) <;> first | rfl | (split <;> rfl)

@[simp] lemma getBrowser_isDesktop (a : AgentInfo) (s : String) : ((getBrowser a s).1).isDesktop = a.isDesktop := by
  unfold getBrowser; lift_lets; intros; (repeat' apply ite_fst_pres) <;> first | rfl | (split <;> rfl)

@[simp] lemma getBrowser_isSmartTV (a : AgentInfo) (s : String) : ((getBrowser a s).1).isSmartTV = a.isSmartTV := by
  unfold getBrowser; lift_lets; intros; (repeat' apply ite_fst_pres) <;> first | rfl | (split <;> rfl)

@[simp] lemma getBrowser_isMac (a : AgentInfo) (s : String) : ((getBrowser a s).1).isMac = a.isMac := by
  unfold getBrowser; lift_lets; intros; (repeat' apply ite_fst_pres) <;> first | rfl | (split <;> rfl)

@[simp] lemma getBrowser_isTablet (a : AgentInfo) (s : String) : ((getBrowser a s).1).isTablet = a.isTablet := by
  unfold getBrowser; lift_lets; intros; (repeat' apply ite_fst_pres) <;> first | rfl | (split <;> rfl)

@[simp] lemma getBrowser_os (a : AgentInfo) (s : String) : ((getBrowser a s).1).os = a.os := by
  unfold getBrowser; lift_lets; intros; (repeat' apply ite_fst_pres) <;> first | rfl | (split <;> rfl)

@[simp] lemma getBrowser_source (a : AgentInfo) (s : String) : ((getBrowser a s).1).source = a.source := by
  unfold getBrowser; lift_lets; intros; (repeat' apply ite_fst_pres) <;> first | rfl | (split <;> rfl)



/-! Frame lemmas for the single-field update helpers of `parse`. -/

@[simp] lemma withOS_isMobile (a : AgentInfo) (v : String) : (withOS a v).isMobile = a.isMobile := rfl

@[simp] lemma withOS_isDesktop (a : AgentInfo) (v : String) : (withOS a v).isDesktop = a.isDesktop := rfl

@[simp] lemma withOS_isSmartTV (a : AgentInfo) (v : String) : (withOS a v).isSmartTV = a.isSmartTV := rfl

@[simp] lemma withOS_isMac (a : AgentInfo) (v : String) : (withOS a v).isMac = a.isMac := rfl

@[simp] lemma withOS_isTablet (a : AgentInfo) (v : String) : (withOS a v).isTablet = a.isTablet := rfl

@[simp] lemma withOS_isAndroid (a : AgentInfo) (v : String) : (withOS a v).isAndroid = a.isAndroid := rfl

@[simp] lemma withOS_source (a : AgentInfo) (v : String) : (withOS a v).source = a.source := rfl

@[simp] lemma withPlatform_isMobile (a : AgentInfo) (v : String) : (withPlatform a v).isMobile = a.isMobile := rfl

@[simp] lemma withPlatform_isDesktop (a : AgentInfo) (v : String) : (withPlatform a v).isDesktop = a.isDesktop := rfl

@[simp] lemma withPlatform_isSmartTV (a : AgentInfo) (v : String) : (withPlatform a v).isSmartTV = a.isSmartTV := rfl

@[simp] lemma withPlatform_isMac (a : AgentInfo) (v : String) : (withPlatform a v).isMac = a.isMac := rfl

@[simp] lemma withPlatform_isTablet (a : AgentInfo) (v : String) : (withPlatform a v).isTablet = a.isTablet := rfl

@[simp] lemma withPlatform_isAndroid (a : AgentInfo) (v : String) : (withPlatform a v).isAndroid = a.isAndroid := rfl

@[simp] lemma withPlatform_source (a : AgentInfo) (v : String) : (withPlatform a v).source = a.source := rfl

@[simp] lemma withBrowser_isMobile (a : AgentInfo) (v : String) : (withBrowser a v).isMobile = a.isMobile := rfl

@[simp] lemma withBrowser_isDesktop (a : AgentInfo) (v : String) : (withBrowser a v).isDesktop = a.isDesktop := rfl

@[simp] lemma withBrowser_isSmartTV (a : AgentInfo) (v : String) : (withBrowser a v).isSmartTV = a.isSmartTV := rfl

@[simp] lemma withBrowser_isMac (a : AgentInfo) (v : String) : (withBrowser a v).isMac = a.isMac := rfl

@[simp] lemma withBrowser_isTablet (a : AgentInfo) (v : String) : (withBrowser a v).isTablet = a.isTablet := rfl

@[simp] lemma withBrowser_isAndroid (a : AgentInfo) (v : String) : (withBrowser a v).isAndroid = a.isAndroid := rfl

@[simp] lemma withBrowser_source (a : AgentInfo) (v : String) : (withBrowser a v).source = a.source := rfl

@[simp] lemma withVersion_isMobile (a : AgentInfo) (v : String) : (withVersion a v).isMobile = a.isMobile := rfl

@[simp] lemma withVersion_isDesktop (a : AgentInfo) (v : String) : (withVersion a v).isDesktop = a.isDesktop := rfl

@[simp] lemma withVersion_isSmartTV (a : AgentInfo) (v : String) : (withVersion a v).isSmartTV = a.isSmartTV := rfl

@[simp] lemma withVersion_isMac (a : AgentInfo) (v : String) : (withVersion a v).isMac = a.isMac := rfl

@[simp] lemma withVersion_isTablet (a : AgentInfo) (v : String) : (withVersion a v).isTablet = a.isTablet := rfl

@[simp] lemma withVersion_isAndroid (a : AgentInfo) (v : String) : (withVersion a v).isAndroid = a.isAndroid := rfl

@[simp] lemma withVersion_source (a : AgentInfo) (v : String) : (withVersion a v).source = a.source := rfl

@[simp] lemma withOS_os (a : AgentInfo) (v : String) : (withOS a v).os = v := rfl

@[simp] lemma withPlatform_os (a : AgentInfo) (v : String) : (withPlatform a v).os = a.os := rfl

@[simp] lemma withBrowser_os (a : AgentInfo) (v : String) : (withBrowser a v).os = a.os := rfl

@[simp] lemma withVersion_os (a : AgentInfo) (v : String) : (withVersion a v).os = a.os := rfl

@[simp] lemma applyEnvInfo_isMobile (env : Env) (a : AgentInfo) : (applyEnvInfo env a).isMobile = a.isMobile := rfl

@[simp] lemma applyEnvInfo_isDesktop (env : Env) (a : AgentInfo) : (applyEnvInfo env a).isDesktop = a.isDesktop := rfl

@[simp] lemma applyEnvInfo_isSmartTV (env : Env) (a : AgentInfo) : (applyEnvInfo env a).isSmartTV = a.isSmartTV := rfl

@[simp] lemma applyEnvInfo_isMac (env : Env) (a : AgentInfo) : (applyEnvInfo env a).isMac = a.isMac := rfl

@[simp] lemma applyEnvInfo_isTablet (env : Env) (a : AgentInfo) : (applyEnvInfo env a).isTablet = a.isTablet := rfl

@[simp] lemma applyEnvInfo_os (env : Env) (a : AgentInfo) : (applyEnvInfo env a).os = a.os := rfl

@[simp] lemma applyEnvInfo_source (env : Env) (a : AgentInfo) : (applyEnvInfo env a).source = a.source := rfl

/-- `testAndroidTablet` can only clear the mobile flag, never set it. -/
@[simp] lemma testAndroidTablet_isMobile (a : AgentInfo) :
    (testAndroidTablet a).isMobile =
      (a.isMobile && !(a.isAndroid && !containsCI a.source.data "mobile")) := by
  cases ha : a.isAndroid <;> cases hm : containsCI a.source.data "mobile" <;>
    simp [testAndroidTablet, ha, hm]

/-- Without a CaptiveNetwork token, `testCaptiveNetwork` leaves `isMac`
alone. -/
lemma testCaptiveNetwork_isMac_of_not (a : AgentInfo)
    (hcap : containsCI a.source.data "captivenetwork" = false) :
    (testCaptiveNetwork a).isMac = a.isMac := by
  unfold testCaptiveNetwork
  rw [hcap]
  simp

/-- If `getOS` classified the agent as iOS, it went through the
`iPad`/`iPhone` branch, and none of the Mac branches ran. -/
lemma getOS_iOS_isMac (a : AgentInfo) (s : String)
    (hios : (getOS a s).2 = "iOS") : ((getOS a s).1).isMac = a.isMac := by
  revert hios
  unfold getOS
  lift_lets
  intro src
  (repeat' apply ite_snd_pres _ _ "iOS") <;> intro h <;> first | rfl | simp at h

/-- The `testMobile` dichotomy: an agent entering with the mobile flag
clear never leaves with both mobile and desktop set. -/
lemma testMobile_excl (a : AgentInfo) (hm : a.isMobile = false) :
    ((testMobile a).isMobile && (testMobile a).isDesktop) = false := by
  unfold testMobile
  (repeat' split) <;> simp_all

/-- A truthy Smart TV flag forces `testMobile` to clear both mobile and
desktop (and every other branch runs only when the flag is falsy). -/
lemma testMobile_smartTV_excl (a : AgentInfo) :
    ((testMobile a).isSmartTV.truthy && ((testMobile a).isMobile || (testMobile a).isDesktop))
      = false := by
  unfold testMobile
  (repeat' split) <;> simp_all

/-- The mobile/desktop/Smart-TV exclusion, pushed through the pipeline
steps that run after `testMobile`. -/
lemma post_pipeline_excl (a : AgentInfo) (hm : a.isMobile = false) :
    ((testCaptiveNetwork (testKindleFire (testSilk (testCompatibilityMode (testTablet
        (testAndroidTablet (testMobile a))))))).isMobile &&
      (testCaptiveNetwork (testKindleFire (testSilk (testCompatibilityMode (testTablet
        (testAndroidTablet (testMobile a))))))).isDesktop) = false ∧
    ((testCaptiveNetwork (testKindleFire (testSilk (testCompatibilityMode (testTablet
        (testAndroidTablet (testMobile a))))))).isSmartTV.truthy &&
      ((testCaptiveNetwork (testKindleFire (testSilk (testCompatibilityMode (testTablet
        (testAndroidTablet (testMobile a))))))).isMobile ||
       (testCaptiveNetwork (testKindleFire (testSilk (testCompatibilityMode (testTablet
        (testAndroidTablet (testMobile a))))))).isDesktop)) = false := by
  have h1 := testMobile_excl a hm
  have h2 := testMobile_smartTV_excl a
  simp only [testCaptiveNetwork_isMobile, testCaptiveNetwork_isDesktop,
    testCaptiveNetwork_isSmartTV, testKindleFire_isMobile, testKindleFire_isDesktop,
    testKindleFire_isSmartTV, testSilk_isMobile, testSilk_isDesktop, testSilk_isSmartTV,
    testCompatibilityMode_isMobile, testCompatibilityMode_isDesktop,
    testCompatibilityMode_isSmartTV, testTablet_isMobile, testTablet_isDesktop,
    testTablet_isSmartTV, testAndroidTablet_isMobile, testAndroidTablet_isDesktop,
    testAndroidTablet_isSmartTV]
  cases hs : (testMobile a).isSmartTV.truthy <;>
    cases hmb : (testMobile a).isMobile <;>
      cases hdb : (testMobile a).isDesktop <;> simp_all


/-- `isMac` pushed through the pipeline steps after `testMobile`, in the
absence of a CaptiveNetwork token. -/
lemma post_pipeline_isMac (a : AgentInfo) (hmac : a.isMac = false)
    (hcap : containsCI a.source.data "captivenetwork" = false) :
    (testCaptiveNetwork (testKindleFire (testSilk (testCompatibilityMode (testTablet
      (testAndroidTablet (testMobile a))))))).isMac = false := by
  rw [testCaptiveNetwork_isMac_of_not]
  · simpa using hmac
  · simpa using hcap

/-! Stage-level lemmas for `parseAgent` and `runTests`. -/

@[simp] lemma parseAgent_source (src : String) : (parseAgent src).source = src := by
  simp [parseAgent]

@[simp] lemma parseAgent_isMobile (src : String) : (parseAgent src).isMobile = false := by
  simp [parseAgent, DEFAULT_AGENT]

lemma parseAgent_os (src : String) :
    (parseAgent src).os = (getOS { DEFAULT_AGENT with source := src } src).2 := by
  simp [parseAgent]

lemma parseAgent_isMac_of_iOS (src : String) (h : (parseAgent src).os = "iOS") :
    (parseAgent src).isMac = false := by
  rw [parseAgent_os] at h
  have : (parseAgent src).isMac = ((getOS { DEFAULT_AGENT with source := src } src).1).isMac := by
    simp [parseAgent]
  rw [this, getOS_iOS_isMac _ _ h]
  rfl

@[simp] lemma runTests_os (a : AgentInfo) : (runTests a).os = a.os := by
  simp [runTests]

@[simp] lemma runTests_source (a : AgentInfo) : (runTests a).source = a.source := by
  simp [runTests]

/-- The exclusion invariant over the whole derived-test stage. -/
lemma runTests_excl (a : AgentInfo) (hm : a.isMobile = false) :
    ((runTests a).isMobile && (runTests a).isDesktop) = false ∧
    ((runTests a).isSmartTV.truthy && ((runTests a).isMobile || (runTests a).isDesktop))
      = false := by
  unfold runTests
  exact post_pipeline_excl (testSmartTV (testBot a)) (by simp [hm])

/-- `isMac` over the whole derived-test stage, absent a CaptiveNetwork
token. -/
lemma runTests_isMac (a : AgentInfo) (hmac : a.isMac = false)
    (hcap : containsCI a.source.data "captivenetwork" = false) :
    (runTests a).isMac = false := by
  unfold runTests
  exact post_pipeline_isMac (testSmartTV (testBot a)) (by simp [hmac]) (by simpa using hcap)

/-- The form-factor exclusion `parse` actually guarantees: at most one
of `isMobile`, `isDesktop`, truthy `isSmartTV`. -/
lemma parse_excl (env : Env) (src : Option String) :
    ((parse env src).isMobile && (parse env src).isDesktop) = false ∧
    ((parse env src).isSmartTV.truthy &&
      ((parse env src).isMobile || (parse env src).isDesktop)) = false := by
  have hp : ∀ e s, parse e s = applyEnvInfo e (runTests (parseAgent (parseSource e s))) :=
    fun _ _ => rfl
  rw [hp, applyEnvInfo_isMobile, applyEnvInfo_isDesktop, applyEnvInfo_isSmartTV]
  exact runTests_excl _ (parseAgent_isMobile _)

/-- C3 (amended): only the three flags `isMobile`, `isDesktop` and a
truthy `isSmartTV` are mutually exclusive on every parsed profile;
`isTablet` is excluded from the invariant, since a literal `/tablet/i`
token sets it without clearing the other flags. -/
theorem claim_C3_amended_form_factor_exclusion :
    ∀ (env : Env) (src : Option String),
      ((parse env src).isMobile && (parse env src).isDesktop) = false ∧
      ((parse env src).isSmartTV.truthy &&
        ((parse env src).isMobile || (parse env src).isDesktop)) = false :=
  fun env src => parse_excl env src

/-- C3 (counterexample to the claim as stated): a user agent carrying
both a `mobile` and a `tablet` token is classified with `isMobile` and
`isTablet` simultaneously true. -/
theorem claim_C3_counterexample_mobile_and_tablet :
    (let a := parse testEnv (some "SomeTablet Mobile Thing")
     a.isMobile = true ∧ a.isTablet = true) := by
  decide

/-- C5 (amended): Smart TV classification always suppresses both the
mobile and the desktop flag, even when a literal `mobile` token is
present; Kindle Fire and `/tablet/i` classification do *not* suppress an
already-set mobile flag (`testKindleFire` runs only after `testTablet`,
so its flag is never visible to the tablet assignment). -/
theorem claim_C5_amended_smarttv_suppresses_mobile
    (env : Env) (src : Option String)
    (hstv : (parse env src).isSmartTV.truthy = true) :
    (parse env src).isMobile = false ∧ (parse env src).isDesktop = false := by
  have h := (parse_excl env src).2
  rw [hstv] at h
  simpa using h

/-- C5 witness: a Smart TV user agent that also contains the literal
substring `Mobile` still comes out with both flags suppressed. -/
theorem claim_C5_amended_witness :
    (parse testEnv (some "Mozilla/5.0 (SmartTV; Linux; Mobile) AppleWebKit/537.36")).isSmartTV.truthy
        = true ∧
      (parse testEnv (some "Mozilla/5.0 (SmartTV; Linux; Mobile) AppleWebKit/537.36")).isMobile
        = false ∧
      (parse testEnv (some "Mozilla/5.0 (SmartTV; Linux; Mobile) AppleWebKit/537.36")).isDesktop
        = false :=
  ⟨by decide,
   claim_C5_amended_smarttv_suppresses_mobile testEnv
     (some "Mozilla/5.0 (SmartTV; Linux; Mobile) AppleWebKit/537.36") (by decide)⟩

/-- C5 (counterexample to the claim as stated): a Kindle Fire user agent
(device code `KFTHWI`) containing the literal token `Mobile` keeps
`isMobile = true` and gets `isTablet = false` — Kindle Fire
classification neither suppresses the mobile flag nor forces the tablet
flag when the `mobile` token is present. -/
theorem claim_C5_counterexample_kindle_mobile :
    (let a := parse testEnv (some "Mozilla/5.0 (Linux; U; Android 4.4.3; KFTHWI Build/KTU84M) AppleWebKit/537.36 (KHTML, like Gecko) Silk/3.68 like Chrome/39.0.2171.93 Mobile Safari/537.36")
     a.isKindleFire = true ∧ a.isMobile = true ∧ a.isTablet = false) := by
  decide

/-- C6 (amended): whenever the iOS device patterns actually fire — the
profile's `os` is `"iOS"`, which `getOS` returns exactly from its
`iPad`/`iPhone` branches, tested before the generic Mac rule — and the
source carries no `CaptiveNetwork` token (that override forces
`isMac`), the parsed profile never has `isMac` set. -/
theorem claim_C6_amended_ios_never_mac
    (env : Env) (src : Option String)
    (hios : (parse env src).os = "iOS")
    (hcap : containsCI (parse env src).source.data "captivenetwork" = false) :
    (parse env src).isMac = false := by
  have hp : ∀ e s, parse e s = applyEnvInfo e (runTests (parseAgent (parseSource e s))) :=
    fun _ _ => rfl
  rw [hp, applyEnvInfo_os, runTests_os] at hios
  rw [hp, applyEnvInfo_source, runTests_source, parseAgent_source] at hcap
  rw [hp, applyEnvInfo_isMac]
  exact runTests_isMac _ (parseAgent_isMac_of_iOS _ hios) (by rw [parseAgent_source]; exact hcap)

/-- C6 witness: the spec's iPad scenario string parses to `os = "iOS"`
with `isMac` unset. -/
theorem claim_C6_amended_witness :
    (parse testEnv (some "Mozilla/5.0 (iPad; CPU OS 17_2 like Mac OS X) AppleWebKit/605.1.15 (KHTML, like Gecko) Version/17.2 Mobile/15E148 Safari/604.1")).os = "iOS" ∧
    (parse testEnv (some "Mozilla/5.0 (iPad; CPU OS 17_2 like Mac OS X) AppleWebKit/605.1.15 (KHTML, like Gecko) Version/17.2 Mobile/15E148 Safari/604.1")).isMac = false :=
  ⟨by decide,
   claim_C6_amended_ios_never_mac testEnv
     (some "Mozilla/5.0 (iPad; CPU OS 17_2 like Mac OS X) AppleWebKit/605.1.15 (KHTML, like Gecko) Version/17.2 Mobile/15E148 Safari/604.1")
     (by decide) (by decide)⟩

/-- C6 (counterexample to the claim as stated): the original iPhone's
user agent `(iPhone; U; CPU like Mac OS X; en)` carries no parsable iOS
version, so the iPhone OS pattern does not fire; the generic `/os x/i`
Mac rule then matches and sets `isMac`, while the platform step still
sets `isiPhone` — an iPhone user agent parsed with `isMac = true`. -/
theorem claim_C6_counterexample_iphone_mac :
    (let a := parse testEnv (some "Mozilla/5.0 (iPhone; U; CPU like Mac OS X; en) AppleWebKit/420+ (KHTML, like Gecko) Version/3.0 Mobile/1A543 Safari/419.3")
     a.isiPhone = true ∧ a.isMac = true) := by
  decide

/-! ## C9: custom-data sensitivity and repeatability of `get` -/

/-- Rewriting an MD5 state word mod `2^32` does not change its hex
rendering: `wordToHex` only reads the low 32 bits of its argument. -/
lemma wordToHex_mod (v : Nat) : wordToHex (v % w32) = wordToHex v := by
  unfold wordToHex
  refine congrArg List.flatten (List.map_congr_left ?_)
  intro count hc
  have hc4 : count < 4 := List.mem_range.mp hc
  have hb : v % w32 / 2 ^ (count * 8) % 256 = v / 2 ^ (count * 8) % 256 := by
    unfold w32
    interval_cases count <;> norm_num <;> omega
  simp only [hb]

/-- Left cancellation of string concatenation, via `String.data`. -/
lemma string_append_cancel_left (x u v : String) (h : x ++ u = x ++ v) : u = v := by
  have hd := congrArg String.data h
  rw [String.data_append, String.data_append] at hd
  exact String.ext (List.append_cancel_left hd)

/-- Right cancellation of string concatenation, via `String.data`. -/
lemma string_append_cancel_right (x u v : String) (h : u ++ x = v ++ x) : u = v := by
  have hd := congrArg String.data h
  rw [String.data_append, String.data_append] at hd
  exact String.ext (List.append_cancel_right hd)

/-- Joining a common prefix of entries can be cancelled on the left:
if `(xs ++ ys).join(sep) = (xs ++ zs).join(sep)` with `ys`, `zs` nonempty,
then already `ys.join(sep) = zs.join(sep)`. -/
lemma joinSep_append_left_cancel (sep : String) :
    ∀ (xs ys zs : List String), ys ≠ [] → zs ≠ [] →
    joinSep sep (xs ++ ys) = joinSep sep (xs ++ zs) → joinSep sep ys = joinSep sep zs
  | [], _, _, _, _, h => h
  | w :: xs, ys, zs, hy, hz, h => by
      have hys : xs ++ ys ≠ [] := fun hc => hy (List.append_eq_nil.mp hc).2
      have hzs : xs ++ zs ≠ [] := fun hc => hz (List.append_eq_nil.mp hc).2
      rcases e1 : xs ++ ys with _ | ⟨c, cs⟩
      · exact absurd e1 hys
      rcases e2 : xs ++ zs with _ | ⟨d, ds⟩
      · exact absurd e2 hzs
      rw [List.cons_append, List.cons_append, e1, e2] at h
      simp only [joinSep] at h
      have h2 := string_append_cancel_left _ _ _ h
      rw [← e1, ← e2] at h2
      exact joinSep_append_left_cancel sep xs ys zs hy hz h2

/-- The four MD5 state words of the digest computed by `get`, reduced mod
`2^32` and packaged as `Fin w32` values: a finite value through which
`get` factors (the hex digest is a function of these words mod `2^32`). -/
def digestFin (inst : Inst) (env : Env) (data : String) :
    Fin w32 × Fin w32 × Fin w32 × Fin w32 :=
  let st := md5Core (toCodeUnits (getPayload inst env data))
  (⟨st.1 % w32, Nat.mod_lt _ (by decide)⟩,
   ⟨st.2.1 % w32, Nat.mod_lt _ (by decide)⟩,
   ⟨st.2.2.1 % w32, Nat.mod_lt _ (by decide)⟩,
   ⟨st.2.2.2 % w32, Nat.mod_lt _ (by decide)⟩)

/-- `get` factors through `digestFin`: inputs whose reduced digest words
agree produce the same UUID string. -/
lemma get_eq_of_digestFin_eq (inst : Inst) (env : Env) (a b : String)
    (h : digestFin inst env a = digestFin inst env b) :
    get inst env a = get inst env b := by
  have h1 : (md5Core (toCodeUnits (getPayload inst env a))).1 % w32
      = (md5Core (toCodeUnits (getPayload inst env b))).1 % w32 :=
    congrArg (fun q : Fin w32 × Fin w32 × Fin w32 × Fin w32 => q.1.val) h
  have h2 : (md5Core (toCodeUnits (getPayload inst env a))).2.1 % w32
      = (md5Core (toCodeUnits (getPayload inst env b))).2.1 % w32 :=
    congrArg (fun q : Fin w32 × Fin w32 × Fin w32 × Fin w32 => q.2.1.val) h
  have h3 : (md5Core (toCodeUnits (getPayload inst env a))).2.2.1 % w32
      = (md5Core (toCodeUnits (getPayload inst env b))).2.2.1 % w32 :=
    congrArg (fun q : Fin w32 × Fin w32 × Fin w32 × Fin w32 => q.2.2.1.val) h
  have h4 : (md5Core (toCodeUnits (getPayload inst env a))).2.2.2 % w32
      = (md5Core (toCodeUnits (getPayload inst env b))).2.2.2 % w32 :=
    congrArg (fun q : Fin w32 × Fin w32 × Fin w32 × Fin w32 => q.2.2.2.val) h
  have hh : hashMD5 (getPayload inst env a) = hashMD5 (getPayload inst env b) := by
    unfold hashMD5
    refine congrArg String.mk ?_
    simp only [hashMD5Units]
    rw [← wordToHex_mod (md5Core (toCodeUnits (getPayload inst env a))).1,
        ← wordToHex_mod (md5Core (toCodeUnits (getPayload inst env a))).2.1,
        ← wordToHex_mod (md5Core (toCodeUnits (getPayload inst env a))).2.2.1,
        ← wordToHex_mod (md5Core (toCodeUnits (getPayload inst env a))).2.2.2,
        h1, h2, h3, h4, wordToHex_mod, wordToHex_mod, wordToHex_mod, wordToHex_mod]
  unfold get
  rw [hh]

/-- C9 (counterexample to the claim as stated): `get` is not injective in
its `customData` argument.  The UUID is a function of the four 32-bit MD5
state words of the payload, a finite range, while the space of custom-data
strings is infinite, so two distinct custom data values collide. -/
theorem claim_C9_counterexample_collision :
    ∃ dataA dataB : String, dataA ≠ dataB ∧
      get newInst testEnv dataA = get newInst testEnv dataB := by
  obtain ⟨x, y, hxy, hfeq⟩ :=
    Finite.exists_ne_map_eq_of_infinite (fun s : String => digestFin newInst testEnv s)
  exact ⟨x, y, hxy, get_eq_of_digestFin_eq newInst testEnv x y hfeq⟩

/-- C9 (amended): `get` is repeatable — equal inputs give equal output —
and it is custom-data sensitive at the payload level: for truthy (nonempty)
distinct custom data the digested payload strings always differ.  Only the
final 128-bit hash compression defeats full injectivity of the UUID. -/
theorem claim_C9_amended_custom_data (inst : Inst) (env : Env) (a b : String)
    (ha : a ≠ "") (hb : b ≠ "") (hne : a ≠ b) :
    get inst env a = get inst env a ∧
    getPayload inst env a ≠ getPayload inst env b := by
  refine ⟨rfl, fun hpay => hne ?_⟩
  unfold getPayload at hpay
  simp only [getDataArray, if_pos ha, if_pos hb] at hpay
  by_cases hm : (!inst.options.resolution && (parse env none).isMobile) = true
  · rw [if_pos hm, if_pos hm, List.append_assoc, List.append_assoc] at hpay
    simp only [List.cons_append, List.nil_append] at hpay
    have h1 := joinSep_append_left_cancel ":" (optionKeyValues (parse env none))
      [a, jsStringOfRes (parse env none).resolution]
      [b, jsStringOfRes (parse env none).resolution]
      (by simp) (by simp) hpay
    simp only [joinSep] at h1
    exact string_append_cancel_right _ _ _ (string_append_cancel_right _ _ _ h1)
  · rw [if_neg hm, if_neg hm] at hpay
    have h1 := joinSep_append_left_cancel ":" (optionKeyValues (parse env none))
      [a] [b] (by simp) (by simp) hpay
    simp only [joinSep] at h1
    exact h1

/-- Witness for C9 (amended) at concrete custom data `"A"`, `"B"`. -/
theorem claim_C9_amended_witness :
    get newInst testEnv "A" = get newInst testEnv "A" ∧
    getPayload newInst testEnv "A" ≠ getPayload newInst testEnv "B" :=
  claim_C9_amended_custom_data newInst testEnv "A" "B" (by decide) (by decide) (by decide)

end DeviceUUID
